import Mathlib

/-!
Shallow embedding of `src/services/instagram.ts` (InstaGenius).

The repository snapshot contains three historical variants of the file,
separated by document markers; they are embedded here as namespaces `V1`
(URL-reference upload, publish-then-poll, 10 polls), `V2` (direct-binary /
two-phase upload, poll-then-publish, 20 polls) and `V3` (resumable-session
upload, poll-then-publish, 20 polls).

Modelling conventions:
  * An HTTP environment `Env : Nat → HttpResponse` gives the parsed response
    to the n-th `fetch` call of a run; the response therefore cannot depend
    on the request content, which matches the claims' phrasing "for every
    possible HTTP-response environment" / "whenever the platform responses
    are identical".
  * Execution is explicit state passing: the state `St` carries the index of
    the next fetch and the trace of observable events (requests issued,
    `setTimeout` sleeps, `console.log` / `console.error` emissions).
  * A thrown `Error(msg)` is `Except.error msg`; `try/catch` is a `match`.
  * JSON bodies keep only the fields the code reads (`id`, `success`,
    `error.message`, `status_code`, `status`); JavaScript truthiness of a
    string field (`!json.id`, `json.error?.message || fb`) is modelled by
    `Option String` with the empty string counted as falsy, and template
    interpolation of a possibly-undefined field by `jsStr`.
  * `Buffer.from(base64, 'base64')` and the `file-type` prober are external
    library code, modelled as uninterpreted function parameters in `Ext`.
  * `URLSearchParams` serialisation ignores percent-encoding (no claim
    depends on it).
-/

namespace Insta

/-- The `error` object of a Graph API response; the code only reads
`json.error?.message` and logs `json.error`. -/
structure ApiError where
  message : Option String
deriving Repr, DecidableEq

/-- The parsed JSON body of a response, restricted to the fields the code
reads. -/
structure JsonBody where
  id : Option String := none
  success : Bool := false
  error : Option ApiError := none
  status_code : Option String := none
  status : Option String := none
deriving Repr, DecidableEq

/-- A fetched response: `response.ok` plus the parsed body. -/
structure HttpResponse where
  ok : Bool
  body : JsonBody
deriving Repr, DecidableEq

/-- The HTTP environment: the response delivered to the n-th fetch of a run. -/
def Env : Type := Nat → HttpResponse

/-- An outbound HTTP request as the code builds it. -/
inductive Req where
  | postForm (url : String) (form : List (String × String))
  | postBinary (url : String) (headers : List (String × String)) (body : List Nat)
  | get (url : String)
deriving Repr, DecidableEq

/-- Observable events of a run, in order. -/
inductive Event where
  | req (r : Req)
  | sleep (ms : Nat)
  | logInfo (s : String)
  | logError (s : String)
deriving Repr, DecidableEq

/-- Execution state: index of the next fetch and the event trace so far. -/
structure St where
  idx : Nat
  trace : List Event
deriving Repr, DecidableEq

def St.init : St := ⟨0, []⟩

/-- Append an observable event. -/
def emit (e : Event) (st : St) : St := { st with trace := st.trace ++ [e] }

/-- Perform a fetch: consume the next environment response and record the
request in the trace. -/
def fetch (env : Env) (r : Req) (st : St) : HttpResponse × St :=
  (env st.idx, { idx := st.idx + 1, trace := st.trace ++ [Event.req r] })

/-- JavaScript truthiness of an optional string field: `undefined` and `""`
are falsy. -/
def truthy : Option String → Bool
  | some s => s != ""
  | none => false

/-- `!json.id` is false exactly when the body has a populated `id`. -/
def JsonBody.idOk (b : JsonBody) : Bool := truthy b.id

/-- `json.error?.message || fb`. -/
def errMsgOr (b : JsonBody) (fb : String) : String :=
  match b.error with
  | some e =>
    match e.message with
    | some m => if m = "" then fb else m
    | none => fb
  | none => fb

/-- Template interpolation of a possibly-undefined string field. -/
def jsStr : Option String → String
  | some s => s
  | none => "undefined"

/-- Rendering of `json.error` when it is passed to `console.error`.  The
exact formatting is irrelevant to the claims; what matters is that it is a
function of the response only. -/
def renderApiError : Option ApiError → String
  | none => "undefined"
  | some e =>
    match e.message with
    | some m => "message: " ++ m
    | none => "object"

/-- `URLSearchParams.toString()`, without percent-encoding. -/
def formToQuery (l : List (String × String)) : String :=
  String.intercalate "&" (l.map fun p => p.1 ++ "=" ++ p.2)

/-- JavaScript `String.prototype.split` with a one-character separator,
written by structural recursion on the character list (so that concrete
inputs evaluate inside the kernel).  `jsSplit ',' ""` is `[""]`, like JS. -/
def jsSplitAux (sep : Char) : List Char → List Char → List String
  | [], acc => [String.mk acc.reverse]
  | c :: cs, acc =>
    if c = sep then String.mk acc.reverse :: jsSplitAux sep cs []
    else jsSplitAux sep cs (c :: acc)

def jsSplit (sep : Char) (s : String) : List String := jsSplitAux sep s.data []

/-- 'image' | 'video'. -/
inductive MediaType where
  | image
  | video
deriving Repr, DecidableEq

/-- External library code used by V2/V3: `Buffer.from(·, 'base64')` and
`fileTypeFromBuffer` from the `file-type` package, as uninterpreted
functions. -/
structure FileType where
  ext : String
  mime : String
deriving Repr, DecidableEq

structure Ext where
  bufferFrom : String → List Nat
  fileTypeFromBuffer : List Nat → Option FileType

def API_VERSION : String := "v20.0"

def BASE_URL : String := "https://graph.facebook.com/" ++ API_VERSION

/-- Events that are status polls: the only GET requests the service issues. -/
def isPollEvent : Event → Bool
  | .req (.get _) => true
  | _ => false

/-- Number of status polls in a trace. -/
def countPolls (t : List Event) : Nat := t.countP isPollEvent

/-- Events that are the `media_publish` POST for a given business account. -/
def isPublishEvent (businessAccountId : String) : Event → Bool
  | .req (.postForm u _) => u == BASE_URL ++ "/" ++ businessAccountId ++ "/media_publish"
  | _ => false

def countPublish (businessAccountId : String) (t : List Event) : Nat :=
  t.countP (isPublishEvent businessAccountId)

/-- Number of outbound HTTP requests (of any kind) in a trace. -/
def countReqs (t : List Event) : Nat :=
  t.countP fun e => match e with | .req _ => true | _ => false

/-- The console output of a trace, in order. -/
def logsOf : List Event → List String
  | [] => []
  | .logInfo s :: t => s :: logsOf t
  | .logError s :: t => s :: logsOf t
  | .req _ :: t => logsOf t
  | .sleep _ :: t => logsOf t

namespace V1

/-- Variant 1 `uploadMedia` (lines 50–88): URL-reference strategy; the data
URI (or URL) is sent as `image_url` / `video_url` without local decoding. -/
def uploadMedia (env : Env) (accessToken businessAccountId caption mediaDataUri : String)
    (mediaType : MediaType) (st : St) : Except String String × St :=
  let form0 := [("access_token", accessToken), ("caption", caption)]
  let uploadUrl := BASE_URL ++ "/" ++ businessAccountId ++ "/media"
  let form :=
    match mediaType with
    | .image => form0 ++ [("image_url", mediaDataUri)]
    | .video => form0 ++ [("media_type", "VIDEO"), ("video_url", mediaDataUri)]
  let (response, st) := fetch env (.postForm uploadUrl form) st
  let json := response.body
  if !response.ok || !json.idOk then
    let st := emit (.logError ("Instagram API Error: " ++ renderApiError json.error)) st
    (Except.error (errMsgOr json "Failed to upload media to Instagram."), st)
  else
    (Except.ok (json.id.getD ""), st)

/-- The `for (let i = 0; i < 10; i++)` loop of variant 1 `pollForCompletion`
(lines 143–165), by fuel; each iteration sleeps 5000 ms, then fetches the
status URL. -/
def pollLoop (env : Env) (statusUrl : String) (initialId : String) :
    Nat → St → Except String String × St
  | 0, st => (Except.error "Publishing timed out.", st)
  | n + 1, st =>
    let st := emit (.sleep 5000) st
    let (statusResponse, st) := fetch env (.get statusUrl) st
    let statusJson := statusResponse.body
    if !statusResponse.ok then
      (Except.error (errMsgOr statusJson "Failed to get publishing status."), st)
    else if statusJson.status_code == some "FINISHED" then
      (Except.ok initialId, st)
    else if statusJson.status_code == some "ERROR" || statusJson.status_code == some "EXPIRED" then
      (Except.error ("Media publishing failed with status: " ++ jsStr statusJson.status), st)
    else
      pollLoop env statusUrl initialId n st

/-- Variant 1 `pollForCompletion` (lines 122–168): issues the initial request
(the `media_publish` POST passed in by `publishMediaContainer`), then polls
the container status up to 10 times. -/
def pollForCompletion (env : Env) (url method : String) (body : List (String × String))
    (accessToken businessAccountId containerId : String) (st : St) :
    Except String String × St :=
  let _ := method
  let (initialResponse, st) := fetch env (.postForm url body) st
  let initialJson := initialResponse.body
  if !initialResponse.ok || !initialJson.idOk then
    (Except.error (errMsgOr initialJson "Failed to initiate media publishing."), st)
  else
    let statusUrl := BASE_URL ++ "/" ++ containerId ++
      "?fields=status_code,status&access_token=" ++ accessToken
    pollLoop env statusUrl (initialJson.id.getD "") 10 st

/-- Variant 1 `publishMediaContainer` (lines 94–117). -/
def publishMediaContainer (env : Env) (accessToken businessAccountId containerId : String)
    (st : St) : Except String String × St :=
  let url := BASE_URL ++ "/" ++ businessAccountId ++ "/media_publish"
  let form := [("access_token", accessToken), ("creation_id", containerId)]
  pollForCompletion env url "POST" form accessToken businessAccountId containerId st

/-- The `try` body of variant 1 `publishToInstagram` (lines 25–38). -/
def publishBody (env : Env) (accessToken businessAccountId caption mediaDataUri : String)
    (mediaType : MediaType) (st : St) : Except String String × St :=
  match uploadMedia env accessToken businessAccountId caption mediaDataUri mediaType st with
  | (Except.error e, st1) => (Except.error e, st1)
  | (Except.ok containerId, st1) =>
    publishMediaContainer env accessToken businessAccountId containerId st1

/-- Variant 1 `publishToInstagram` (lines 18–45): the single catch boundary
logs the error and re-throws it wrapped once. -/
def publishToInstagram (env : Env)
    (accessToken businessAccountId caption mediaDataUri : String)
    (mediaType : MediaType) : Except String String × St :=
  match publishBody env accessToken businessAccountId caption mediaDataUri mediaType St.init with
  | (Except.error e, st) =>
    let st := emit (.logError ("Error publishing to Instagram: " ++ e)) st
    (Except.error ("Instagram publishing failed: " ++ e), st)
  | (Except.ok creationId, st) => (Except.ok creationId, st)

end V1

namespace V2

/-- Variant 2 `uploadMedia` (lines 222–310): decodes the data URI, probes the
file type, then either direct-binary image upload or two-phase video
container-then-upload.  `mediaDataUri.split(',')[1]` being `undefined` and
being `""` are both falsy, so they are merged into one check. -/
def uploadMedia (env : Env) (ext : Ext)
    (accessToken businessAccountId caption mediaDataUri : String)
    (mediaType : MediaType) (st : St) : Except String String × St :=
  let base64Data := (jsSplit ',' mediaDataUri).getD 1 ""
  if base64Data = "" then
    (Except.error "Invalid data URI provided.", st)
  else
    let buffer := ext.bufferFrom base64Data
    let fileDetails := ext.fileTypeFromBuffer buffer
    match mediaType with
    | .image =>
      let url := BASE_URL ++ "/" ++ businessAccountId ++ "/media"
      let params := [("caption", caption), ("access_token", accessToken)]
      let (uploadResponse, st) := fetch env
        (.postBinary (url ++ "?" ++ formToQuery params)
          [("Content-Type", (fileDetails.map FileType.mime).getD "image/jpeg")] buffer) st
      let json := uploadResponse.body
      if !uploadResponse.ok || !json.idOk then
        let st := emit (.logError ("Instagram API Error (uploadImage): " ++
          renderApiError json.error)) st
        (Except.error (errMsgOr json "Failed to upload image."), st)
      else
        let st := emit (.logInfo ("Successfully created image container with ID: " ++
          json.id.getD "")) st
        (Except.ok (json.id.getD ""), st)
    | .video =>
      let url := BASE_URL ++ "/" ++ businessAccountId ++ "/media"
      let params := [("media_type", "VIDEO"), ("video_type", "REELS"),
        ("caption", caption), ("access_token", accessToken)]
      let (createContainerResponse, st) := fetch env (.postForm url params) st
      let createContainerJson := createContainerResponse.body
      if !createContainerResponse.ok || !createContainerJson.idOk then
        let st := emit (.logError ("Instagram API Error (create video container): " ++
          renderApiError createContainerJson.error)) st
        (Except.error (errMsgOr createContainerJson "Failed to create video container."), st)
      else
        let containerId := createContainerJson.id.getD ""
        let st := emit (.logInfo ("Successfully created video container with ID: " ++
          containerId)) st
        let uploadUrl := BASE_URL ++ "/" ++ containerId
        let (uploadResponse, st) := fetch env
          (.postBinary uploadUrl
            [("Authorization", "OAuth " ++ accessToken),
             ("Content-Type", (fileDetails.map FileType.mime).getD "application/octet-stream"),
             ("Content-Length", toString buffer.length)] buffer) st
        let uploadJson := uploadResponse.body
        if !uploadResponse.ok || !uploadJson.success then
          let st := emit (.logError ("Instagram API Error (upload video file): " ++
            renderApiError uploadJson.error)) st
          (Except.error (errMsgOr uploadJson "Failed to upload video file to Instagram."), st)
        else
          let st := emit (.logInfo ("Successfully uploaded video file to container ID: " ++
            containerId)) st
          (Except.ok containerId, st)

/-- The `for (let i = 0; i < 20; i++)` loop of variant 2
`pollForContainerReady` (lines 323–345), by fuel; each iteration fetches the
status first and sleeps 5000 ms only when it retries. -/
def pollLoop (env : Env) (statusUrl : String) : Nat → St → Except String Unit × St
  | 0, st => (Except.error "Media container processing timed out.", st)
  | n + 1, st =>
    let (statusResponse, st) := fetch env (.get statusUrl) st
    let statusJson := statusResponse.body
    if !statusResponse.ok then
      let st := emit (.logError ("Instagram API Error (pollForContainerReady): " ++
        renderApiError statusJson.error)) st
      (Except.error (errMsgOr statusJson "Failed to get container status."), st)
    else
      let statusCode := statusJson.status_code
      if statusCode == some "FINISHED" then
        (Except.ok (), emit (.logInfo "Media container is ready.") st)
      else if statusCode == some "ERROR" || statusCode == some "EXPIRED" then
        (Except.error ("Media container processing failed with status: " ++
          jsStr statusCode ++ ". Status: " ++ jsStr statusJson.status), st)
      else
        let st := emit (.logInfo ("Container status: " ++ jsStr statusCode ++
          ". Polling again in 5 seconds...")) st
        let st := emit (.sleep 5000) st
        pollLoop env statusUrl n st

/-- Variant 2 `pollForContainerReady` (lines 316–348). -/
def pollForContainerReady (env : Env) (accessToken containerId : String) (st : St) :
    Except String Unit × St :=
  let statusUrl := BASE_URL ++ "/" ++ containerId ++
    "?fields=status_code,status&access_token=" ++ accessToken
  pollLoop env statusUrl 20 st

/-- Variant 2 `publishMediaContainer` (lines 353–376). -/
def publishMediaContainer (env : Env) (accessToken businessAccountId containerId : String)
    (st : St) : Except String String × St :=
  let url := BASE_URL ++ "/" ++ businessAccountId ++ "/media_publish"
  let form := [("access_token", accessToken), ("creation_id", containerId)]
  let (response, st) := fetch env (.postForm url form) st
  let json := response.body
  if !response.ok || !json.idOk then
    let st := emit (.logError ("Instagram API Error (publishMediaContainer): " ++
      renderApiError json.error)) st
    (Except.error (errMsgOr json "Failed to publish media container."), st)
  else
    let st := emit (.logInfo ("Successfully published post with ID: " ++ json.id.getD "")) st
    (Except.ok (json.id.getD ""), st)

/-- The `try` body of variant 2 `publishToInstagram` (lines 194–210):
upload, poll for readiness, then publish. -/
def publishBody (env : Env) (ext : Ext)
    (accessToken businessAccountId caption mediaDataUri : String)
    (mediaType : MediaType) (st : St) : Except String String × St :=
  match uploadMedia env ext accessToken businessAccountId caption mediaDataUri mediaType st with
  | (Except.error e, st1) => (Except.error e, st1)
  | (Except.ok containerId, st1) =>
    match pollForContainerReady env accessToken containerId st1 with
    | (Except.error e, st2) => (Except.error e, st2)
    | (Except.ok _, st2) =>
      publishMediaContainer env accessToken businessAccountId containerId st2

/-- Variant 2 `publishToInstagram` (lines 187–217). -/
def publishToInstagram (env : Env) (ext : Ext)
    (accessToken businessAccountId caption mediaDataUri : String)
    (mediaType : MediaType) : Except String String × St :=
  match publishBody env ext accessToken businessAccountId caption mediaDataUri mediaType
      St.init with
  | (Except.error e, st) =>
    let st := emit (.logError ("Error publishing to Instagram: " ++ e)) st
    (Except.error ("Instagram publishing failed: " ++ e), st)
  | (Except.ok creationId, st) => (Except.ok creationId, st)

end V2

namespace V3

/-- `URLSearchParams.set`: replace the value of an existing key (append when
absent); used by variant 3 for `containerParams.set('media_type', 'VIDEO')`. -/
def setParam (l : List (String × String)) (key value : String) : List (String × String) :=
  if l.any fun p => p.1 == key then
    l.map fun p => if p.1 == key then (key, value) else p
  else
    l ++ [(key, value)]

/-- Variant 3 `uploadMedia` (lines 433–528): resumable-session strategy —
create an upload session, POST the bytes to the session id, then create the
media container referencing the session. -/
def uploadMedia (env : Env) (ext : Ext)
    (accessToken businessAccountId caption mediaDataUri : String)
    (mediaType : MediaType) (st : St) : Except String String × St :=
  let base64Data := (jsSplit ',' mediaDataUri).getD 1 ""
  if base64Data = "" then
    (Except.error "Invalid data URI provided.", st)
  else
    let buffer := ext.bufferFrom base64Data
    let uploadSessionUrl := BASE_URL ++ "/" ++ businessAccountId ++ "/media"
    let fileDetails := ext.fileTypeFromBuffer buffer
    let fileSize := buffer.length
    let sessionParams :=
      [("file_length", toString fileSize),
       ("media_type", match mediaType with | .image => "IMAGE" | .video => "VIDEO"),
       ("access_token", accessToken)]
    let (sessionResponse, st) := fetch env (.postForm uploadSessionUrl sessionParams) st
    let sessionJson := sessionResponse.body
    if !sessionResponse.ok || !sessionJson.idOk then
      let st := emit (.logError ("Instagram API Error (create upload session): " ++
        renderApiError sessionJson.error)) st
      (Except.error (errMsgOr sessionJson "Failed to create upload session."), st)
    else
      let uploadSessionId := sessionJson.id.getD ""
      let st := emit (.logInfo ("Successfully created upload session with ID: " ++
        uploadSessionId)) st
      let (uploadResponse, st) := fetch env
        (.postBinary (BASE_URL ++ "/" ++ uploadSessionId)
          [("Authorization", "OAuth " ++ accessToken),
           ("Content-Type", (fileDetails.map FileType.mime).getD
             (match mediaType with | .image => "image/jpeg" | .video => "video/mp4")),
           ("Content-Length", toString fileSize),
           ("X-Entity-Name", "upload." ++ (fileDetails.map FileType.ext).getD "bin"),
           ("X-Entity-Length", toString fileSize),
           ("offset", "0")] buffer) st
      let uploadJson := uploadResponse.body
      if !uploadResponse.ok || !uploadJson.success then
        let st := emit (.logError ("Instagram API Error (upload media file): " ++
          renderApiError uploadJson.error)) st
        (Except.error (errMsgOr uploadJson "Failed to upload media file to Instagram."), st)
      else
        let st := emit (.logInfo ("Successfully uploaded media for session ID: " ++
          uploadSessionId)) st
        let containerUrl := BASE_URL ++ "/" ++ businessAccountId ++ "/media"
        let containerParams0 :=
          [("media_type", match mediaType with | .image => "IMAGE" | .video => "VIDEO"),
           ("caption", caption),
           ("access_token", accessToken),
           ("upload_id", uploadSessionId)]
        let containerParams :=
          match mediaType with
          | .video => setParam containerParams0 "media_type" "VIDEO"
          | .image => containerParams0
        let (containerResponse, st) := fetch env (.postForm containerUrl containerParams) st
        let containerJson := containerResponse.body
        if !containerResponse.ok || !containerJson.idOk then
          let st := emit (.logError ("Instagram API Error (createContainer): " ++
            renderApiError containerJson.error)) st
          (Except.error
            (errMsgOr containerJson "Failed to create media container from upload session."), st)
        else
          let containerId := containerJson.id.getD ""
          let st := emit (.logInfo ("Successfully created media container with ID: " ++
            containerId)) st
          (Except.ok containerId, st)

/-- The poll loop of variant 3 `pollForContainerReady` (lines 541–564), by
fuel; identical to variant 2's loop except that the terminal-failure message
interpolates only `statusJson.status`. -/
def pollLoop (env : Env) (statusUrl : String) : Nat → St → Except String Unit × St
  | 0, st => (Except.error "Media container processing timed out.", st)
  | n + 1, st =>
    let (statusResponse, st) := fetch env (.get statusUrl) st
    let statusJson := statusResponse.body
    if !statusResponse.ok then
      let st := emit (.logError ("Instagram API Error (pollForContainerReady): " ++
        renderApiError statusJson.error)) st
      (Except.error (errMsgOr statusJson "Failed to get container status."), st)
    else
      let statusCode := statusJson.status_code
      if statusCode == some "FINISHED" then
        (Except.ok (), emit (.logInfo "Media container is ready.") st)
      else if statusCode == some "ERROR" || statusCode == some "EXPIRED" then
        (Except.error ("Media container processing failed with status: " ++
          jsStr statusJson.status), st)
      else
        let st := emit (.logInfo ("Container status: " ++ jsStr statusCode ++
          ". Polling again in 5 seconds...")) st
        let st := emit (.sleep 5000) st
        pollLoop env statusUrl n st

/-- Variant 3 `pollForContainerReady` (lines 534–567). -/
def pollForContainerReady (env : Env) (accessToken containerId : String) (st : St) :
    Except String Unit × St :=
  let statusUrl := BASE_URL ++ "/" ++ containerId ++
    "?fields=status_code,status&access_token=" ++ accessToken
  pollLoop env statusUrl 20 st

/-- Variant 3 `publishMediaContainer` (lines 573–596); textually identical to
variant 2's. -/
def publishMediaContainer (env : Env) (accessToken businessAccountId containerId : String)
    (st : St) : Except String String × St :=
  let url := BASE_URL ++ "/" ++ businessAccountId ++ "/media_publish"
  let form := [("access_token", accessToken), ("creation_id", containerId)]
  let (response, st) := fetch env (.postForm url form) st
  let json := response.body
  if !response.ok || !json.idOk then
    let st := emit (.logError ("Instagram API Error (publishMediaContainer): " ++
      renderApiError json.error)) st
    (Except.error (errMsgOr json "Failed to publish media container."), st)
  else
    let st := emit (.logInfo ("Successfully published post with ID: " ++ json.id.getD "")) st
    (Except.ok (json.id.getD ""), st)

/-- The `try` body of variant 3 `publishToInstagram` (lines 404–421). -/
def publishBody (env : Env) (ext : Ext)
    (accessToken businessAccountId caption mediaDataUri : String)
    (mediaType : MediaType) (st : St) : Except String String × St :=
  match uploadMedia env ext accessToken businessAccountId caption mediaDataUri mediaType st with
  | (Except.error e, st1) => (Except.error e, st1)
  | (Except.ok containerId, st1) =>
    match pollForContainerReady env accessToken containerId st1 with
    | (Except.error e, st2) => (Except.error e, st2)
    | (Except.ok _, st2) =>
      publishMediaContainer env accessToken businessAccountId containerId st2

/-- Variant 3 `publishToInstagram` (lines 397–428). -/
def publishToInstagram (env : Env) (ext : Ext)
    (accessToken businessAccountId caption mediaDataUri : String)
    (mediaType : MediaType) : Except String String × St :=
  match publishBody env ext accessToken businessAccountId caption mediaDataUri mediaType
      St.init with
  | (Except.error e, st) =>
    let st := emit (.logError ("Error publishing to Instagram: " ++ e)) st
    (Except.error ("Instagram publishing failed: " ++ e), st)
  | (Except.ok creationId, st) => (Except.ok creationId, st)

end V3

/-- Whether a stage result is a success. -/
def isOkRes {α : Type} : Except String α → Bool
  | .ok _ => true
  | .error _ => false

/-! Concrete data used by witnesses and counterexamples. -/

/-- An environment in which every call fails with an empty error body. -/
def envAllFail : Env := fun _ => ⟨false, {}⟩

/-- An environment in which every call returns HTTP success but the body has
no `id` (and no `error`). -/
def env200NoId : Env := fun _ => ⟨true, {}⟩

/-- A poll response that makes the loop retry: HTTP success with a
`status_code` that is neither `FINISHED` nor `ERROR` nor `EXPIRED`. -/
def nonTerminal (r : HttpResponse) : Prop :=
  r.ok = true ∧ r.body.status_code ≠ some "FINISHED" ∧
  r.body.status_code ≠ some "ERROR" ∧ r.body.status_code ≠ some "EXPIRED"

instance (r : HttpResponse) : Decidable (nonTerminal r) := by
  unfold nonTerminal; infer_instance

/-- The events of one retrying iteration of the V2/V3 poll loop (fetch, log,
sleep), where `i` is the fetch index of the iteration's status poll. -/
def ntSegPost (env : Env) (url : String) (i : Nat) : List Event :=
  [.req (.get url),
   .logInfo ("Container status: " ++ jsStr (env i).body.status_code ++
     ". Polling again in 5 seconds..."),
   .sleep 5000]

/-- The events of `k` retrying V2/V3 iterations whose status polls are the
fetches `i, i+1, …, i+k-1`. -/
def ntTracePost (env : Env) (url : String) : Nat → Nat → List Event
  | _, 0 => []
  | i, Nat.succ k => ntSegPost env url i ++ ntTracePost env url (i + 1) k

/-- The status URL every variant polls:
`BASE_URL/{containerId}?fields=status_code,status&access_token=...`. -/
def statusUrlOf (accessToken containerId : String) : String :=
  BASE_URL ++ "/" ++ containerId ++ "?fields=status_code,status&access_token=" ++ accessToken

/-- The events of one retrying iteration of the V1 poll loop (sleep, then
fetch; nothing is logged). -/
def ntSegPre (url : String) : List Event := [.sleep 5000, .req (.get url)]

/-- The events of `k` retrying V1 iterations. -/
def ntTracePre (url : String) : Nat → List Event
  | 0 => []
  | Nat.succ k => ntSegPre url ++ ntTracePre url k

/-- A successful response carrying `id`. -/
def respOkId (i : String) : HttpResponse := ⟨true, { id := some i }⟩

/-- A successful response carrying `status_code` (and a `status` text). -/
def respStatus (s : String) : HttpResponse :=
  ⟨true, { status_code := some s, status := some ("st-" ++ s) }⟩

/-- A happy-path environment for variant 1: container creation yields `c1`,
the initial `media_publish` POST yields `p1`, and every status poll reports
`FINISHED`. -/
def envC2 : Env := fun n =>
  if n = 0 then respOkId "c1" else if n = 1 then respOkId "p1" else respStatus "FINISHED"

/-- An environment for variant 1 in which upload and the `media_publish`
POST both succeed but the container status never leaves `IN_PROGRESS`. -/
def envC10 : Env := fun n =>
  if n = 0 then respOkId "c1" else if n = 1 then respOkId "p1"
  else respStatus "IN_PROGRESS"

end Insta

namespace Insta

/-! Generic lemmas about traces. -/

theorem logsOf_append (s t : List Event) : logsOf (s ++ t) = logsOf s ++ logsOf t := by
  induction s with
  | nil => rfl
  | cons e s ih => cases e <;> simp [logsOf, ih]

theorem countPolls_append (s t : List Event) :
    countPolls (s ++ t) = countPolls s + countPolls t := by
  simp [countPolls, List.countP_append]

theorem countPublish_append (b : String) (s t : List Event) :
    countPublish b (s ++ t) = countPublish b s + countPublish b t := by
  simp [countPublish, List.countP_append]

end Insta

namespace Insta

/-- Claim C1: for every input and HTTP-response environment, when any internal
stage of `publishToInstagram` (upload, readiness poll, or publish) raises an
error with message `m`, `publishToInstagram` raises exactly one error whose
message is `"Instagram publishing failed: " ++ m`; conversely every error it
raises is of that shape with `m` the message of exactly one stage, so stage
errors are never re-raised unwrapped nor wrapped more than once.  Stated for
variant 1 (upload / publish-and-poll stages) and variant 2 (upload / poll /
publish stages). -/
theorem C1_publish_error_wrapped_once :
    (∀ env a b c u k,
      (∀ m st1, V1.uploadMedia env a b c u k St.init = (Except.error m, st1) →
        (V1.publishToInstagram env a b c u k).1 =
          Except.error ("Instagram publishing failed: " ++ m)) ∧
      (∀ cid st1 m st2, V1.uploadMedia env a b c u k St.init = (Except.ok cid, st1) →
        V1.publishMediaContainer env a b cid st1 = (Except.error m, st2) →
        (V1.publishToInstagram env a b c u k).1 =
          Except.error ("Instagram publishing failed: " ++ m)) ∧
      (∀ s st, V1.publishToInstagram env a b c u k = (Except.error s, st) →
        ∃ m, s = "Instagram publishing failed: " ++ m ∧
          ((∃ st1, V1.uploadMedia env a b c u k St.init = (Except.error m, st1)) ∨
           (∃ cid st1 st2, V1.uploadMedia env a b c u k St.init = (Except.ok cid, st1) ∧
             V1.publishMediaContainer env a b cid st1 = (Except.error m, st2))))) ∧
    (∀ env ex a b c u k,
      (∀ m st1, V2.uploadMedia env ex a b c u k St.init = (Except.error m, st1) →
        (V2.publishToInstagram env ex a b c u k).1 =
          Except.error ("Instagram publishing failed: " ++ m)) ∧
      (∀ cid st1 m st2, V2.uploadMedia env ex a b c u k St.init = (Except.ok cid, st1) →
        V2.pollForContainerReady env a cid st1 = (Except.error m, st2) →
        (V2.publishToInstagram env ex a b c u k).1 =
          Except.error ("Instagram publishing failed: " ++ m)) ∧
      (∀ cid st1 st2 m st3, V2.uploadMedia env ex a b c u k St.init = (Except.ok cid, st1) →
        V2.pollForContainerReady env a cid st1 = (Except.ok (), st2) →
        V2.publishMediaContainer env a b cid st2 = (Except.error m, st3) →
        (V2.publishToInstagram env ex a b c u k).1 =
          Except.error ("Instagram publishing failed: " ++ m)) ∧
      (∀ s st, V2.publishToInstagram env ex a b c u k = (Except.error s, st) →
        ∃ m, s = "Instagram publishing failed: " ++ m ∧
          ((∃ st1, V2.uploadMedia env ex a b c u k St.init = (Except.error m, st1)) ∨
           (∃ cid st1 st2, V2.uploadMedia env ex a b c u k St.init = (Except.ok cid, st1) ∧
             V2.pollForContainerReady env a cid st1 = (Except.error m, st2)) ∨
           (∃ cid st1 st2 st3,
             V2.uploadMedia env ex a b c u k St.init = (Except.ok cid, st1) ∧
             V2.pollForContainerReady env a cid st1 = (Except.ok (), st2) ∧
             V2.publishMediaContainer env a b cid st2 = (Except.error m, st3))))) := by
  constructor
  · intro env a b c u k
    refine ⟨?_, ?_, ?_⟩
    · intro m st1 h
      simp [V1.publishToInstagram, V1.publishBody, h]
    · intro cid st1 m st2 h1 h2
      simp [V1.publishToInstagram, V1.publishBody, h1, h2]
    · intro s st h
      unfold V1.publishToInstagram V1.publishBody at h
      cases hu : V1.uploadMedia env a b c u k St.init with
      | mk r1 st1 =>
        cases r1 with
        | error m =>
          simp [hu] at h
          exact ⟨m, h.1.symm, Or.inl ⟨st1, rfl⟩⟩
        | ok cid =>
          cases hp : V1.publishMediaContainer env a b cid st1 with
          | mk r2 st2 =>
            cases r2 with
            | error m =>
              simp [hu, hp] at h
              exact ⟨m, h.1.symm, Or.inr ⟨cid, st1, st2, rfl, hp⟩⟩
            | ok r =>
              simp [hu, hp] at h
  · intro env ex a b c u k
    refine ⟨?_, ?_, ?_, ?_⟩
    · intro m st1 h
      simp [V2.publishToInstagram, V2.publishBody, h]
    · intro cid st1 m st2 h1 h2
      simp [V2.publishToInstagram, V2.publishBody, h1, h2]
    · intro cid st1 st2 m st3 h1 h2 h3
      simp [V2.publishToInstagram, V2.publishBody, h1, h2, h3]
    · intro s st h
      unfold V2.publishToInstagram V2.publishBody at h
      cases hu : V2.uploadMedia env ex a b c u k St.init with
      | mk r1 st1 =>
        cases r1 with
        | error m =>
          simp [hu] at h
          exact ⟨m, h.1.symm, Or.inl ⟨st1, rfl⟩⟩
        | ok cid =>
          cases hq : V2.pollForContainerReady env a cid st1 with
          | mk r2 st2 =>
            cases r2 with
            | error m =>
              simp [hu, hq] at h
              exact ⟨m, h.1.symm, Or.inr (Or.inl ⟨cid, st1, st2, rfl, hq⟩)⟩
            | ok _ =>
              cases hp : V2.publishMediaContainer env a b cid st2 with
              | mk r3 st3 =>
                cases r3 with
                | error m =>
                  simp [hu, hq, hp] at h
                  exact ⟨m, h.1.symm, Or.inr (Or.inr ⟨cid, st1, st2, st3, rfl, hq, hp⟩)⟩
                | ok r =>
                  simp [hu, hq, hp] at h

/-- Witness for C1: in the environment where every call fails, variant 1's
upload stage fails with its generic message and the orchestrator error is
that message behind the single wrapper prefix. -/
theorem C1_wrap_witness :
    (V1.publishToInstagram envAllFail "t" "b" "c" "u" MediaType.image).1 =
      Except.error ("Instagram publishing failed: " ++
        "Failed to upload media to Instagram.") :=
  ((C1_publish_error_wrapped_once.1 envAllFail "t" "b" "c" "u" MediaType.image).1
    "Failed to upload media to Instagram." _ rfl)

/-- Claim C3: a container-creation or publish HTTP call succeeds if and only
if the HTTP status is a success status AND the parsed body contains a
populated identifier (`id`, or `success: true` for the byte-upload call);
when it fails, the error carries the platform's embedded error message when
present and otherwise the generic per-stage fallback — so HTTP 200 with no
`id` never succeeds.  Stated for variant 1 `uploadMedia` (container
creation), variant 2 `publishMediaContainer`, and variant 2's video
byte-upload call; the last conjunct characterises the error message as the
embedded platform message when populated and the fallback otherwise. -/
theorem C3_success_iff_http_ok_and_id :
    (∀ env a b c u k,
      isOkRes (V1.uploadMedia env a b c u k St.init).1 =
        ((env 0).ok && (env 0).body.idOk) ∧
      (((env 0).ok && (env 0).body.idOk) = false →
        (V1.uploadMedia env a b c u k St.init).1 =
          Except.error (errMsgOr (env 0).body "Failed to upload media to Instagram."))) ∧
    (∀ env a b cid st,
      isOkRes (V2.publishMediaContainer env a b cid st).1 =
        ((env st.idx).ok && (env st.idx).body.idOk) ∧
      (((env st.idx).ok && (env st.idx).body.idOk) = false →
        (V2.publishMediaContainer env a b cid st).1 =
          Except.error (errMsgOr (env st.idx).body "Failed to publish media container."))) ∧
    (∀ env ex a b c u, (jsSplit ',' u).getD 1 "" ≠ "" →
      ((env 0).ok && (env 0).body.idOk) = true →
      isOkRes (V2.uploadMedia env ex a b c u MediaType.video St.init).1 =
        ((env 1).ok && (env 1).body.success)) ∧
    (∀ b fb, (∃ m, errMsgOr b fb = m ∧ b.error = some ⟨some m⟩ ∧ m ≠ "") ∨
      errMsgOr b fb = fb) := by
  refine ⟨?_, ?_, ?_, ?_⟩
  · intro env a b c u k
    cases k <;>
      cases h1 : (env 0).ok <;> cases h2 : (env 0).body.idOk <;>
        simp [V1.uploadMedia, fetch, St.init, isOkRes, h1, h2]
  · intro env a b cid st
    cases h1 : (env st.idx).ok <;> cases h2 : (env st.idx).body.idOk <;>
      simp [V2.publishMediaContainer, fetch, isOkRes, h1, h2]
  · intro env ex a b c u hu h1
    rw [Bool.and_eq_true] at h1
    have hu2 : ((jsSplit ',' u)[1]?.getD "") ≠ "" := by simpa [List.getD] using hu
    cases h2 : (env 1).ok <;> cases h3 : (env 1).body.success <;>
      simp [V2.uploadMedia, fetch, emit, St.init, isOkRes, hu2, h1.1, h1.2, h2, h3]
  · intro b fb
    cases hb : b.error with
    | none => exact Or.inr (by simp [errMsgOr, hb])
    | some e =>
      cases e with
      | mk msg =>
        cases msg with
        | none => exact Or.inr (by simp [errMsgOr, hb])
        | some m =>
          by_cases hme : m = ""
          · exact Or.inr (by simp [errMsgOr, hb, hme])
          · exact Or.inl ⟨m, by simp [errMsgOr, hb, hme], rfl, hme⟩

/-- Witness for C3: with every response HTTP-successful but carrying no `id`,
variant 1's container creation fails with the generic fallback message. -/
theorem C3_witness :
    (V1.uploadMedia env200NoId "t" "b" "c" "u" MediaType.image St.init).1 =
      Except.error "Failed to upload media to Instagram." :=
  (C3_success_iff_http_ok_and_id.1 env200NoId "t" "b" "c" "u" MediaType.image).2 (by decide)

/-! Poll-loop lemmas, variant 1. -/

theorem V1.pollLoop_step_v1 (env : Env) (url pid : String) (n : Nat) (st : St)
    (h : nonTerminal (env st.idx)) :
    V1.pollLoop env url pid (n + 1) st =
      V1.pollLoop env url pid n ⟨st.idx + 1, st.trace ++ ntSegPre url⟩ := by
  obtain ⟨h1, h2, h3, h4⟩ := h
  simp [V1.pollLoop, fetch, emit, ntSegPre, h1, beq_iff_eq, h2, h3, h4, List.append_assoc]

theorem V1.pollLoop_skip_v1 (env : Env) (url pid : String) :
    ∀ (k fuel : Nat) (st : St), k ≤ fuel →
    (∀ j, j < k → nonTerminal (env (st.idx + j))) →
    V1.pollLoop env url pid fuel st =
      V1.pollLoop env url pid (fuel - k) ⟨st.idx + k, st.trace ++ ntTracePre url k⟩ := by
  intro k
  induction k with
  | zero =>
    intro fuel st _ _
    simp [ntTracePre]
  | succ k ih =>
    intro fuel st hk hnt
    cases fuel with
    | zero => omega
    | succ fuel =>
      rw [V1.pollLoop_step_v1 env url pid fuel st (by simpa using hnt 0 (Nat.succ_pos k))]
      rw [ih fuel ⟨st.idx + 1, st.trace ++ ntSegPre url⟩ (by omega) ?_]
      · have h1 : fuel + 1 - (k + 1) = fuel - k := by omega
        have h2 : st.idx + 1 + k = st.idx + (k + 1) := by omega
        simp [h1, h2, ntTracePre, List.append_assoc]
      · intro j hj
        have h3 := hnt (j + 1) (by omega)
        have h4 : st.idx + (j + 1) = st.idx + 1 + j := by omega
        rw [h4] at h3
        simpa using h3

theorem V1.pollLoop_finished_v1 (env : Env) (url pid : String) (fuel : Nat) (st : St)
    (hok : (env st.idx).ok = true)
    (hf : (env st.idx).body.status_code = some "FINISHED") :
    V1.pollLoop env url pid (fuel + 1) st =
      (Except.ok pid, ⟨st.idx + 1, st.trace ++ ntSegPre url⟩) := by
  simp [V1.pollLoop, fetch, emit, ntSegPre, hok, hf, List.append_assoc]

theorem V1.pollLoop_terminalError_v1 (env : Env) (url pid : String) (fuel : Nat) (st : St)
    (hok : (env st.idx).ok = true)
    (herr : (env st.idx).body.status_code = some "ERROR" ∨
      (env st.idx).body.status_code = some "EXPIRED") :
    V1.pollLoop env url pid (fuel + 1) st =
      (Except.error ("Media publishing failed with status: " ++ jsStr (env st.idx).body.status),
       ⟨st.idx + 1, st.trace ++ ntSegPre url⟩) := by
  cases herr with
  | inl h => simp [V1.pollLoop, fetch, emit, ntSegPre, hok, h, List.append_assoc]
  | inr h => simp [V1.pollLoop, fetch, emit, ntSegPre, hok, h, List.append_assoc]

theorem countPolls_ntSegPre (url : String) : countPolls (ntSegPre url) = 1 := rfl

theorem countPolls_ntTracePre (url : String) : ∀ k, countPolls (ntTracePre url k) = k := by
  intro k
  induction k with
  | zero => rfl
  | succ k ih =>
    rw [ntTracePre, countPolls_append, countPolls_ntSegPre, ih]
    omega

/-! Poll-loop lemmas, variants 2 and 3 (poll first, sleep on retry). -/

theorem V2.pollLoop_step_v2 (env : Env) (url : String) (n : Nat) (st : St)
    (h : nonTerminal (env st.idx)) :
    V2.pollLoop env url (n + 1) st =
      V2.pollLoop env url n ⟨st.idx + 1, st.trace ++ ntSegPost env url st.idx⟩ := by
  obtain ⟨h1, h2, h3, h4⟩ := h
  simp [V2.pollLoop, fetch, emit, ntSegPost, h1, beq_iff_eq, h2, h3, h4, List.append_assoc]

theorem V2.pollLoop_skip_v2 (env : Env) (url : String) :
    ∀ (k fuel : Nat) (st : St), k ≤ fuel →
    (∀ j, j < k → nonTerminal (env (st.idx + j))) →
    V2.pollLoop env url fuel st =
      V2.pollLoop env url (fuel - k) ⟨st.idx + k, st.trace ++ ntTracePost env url st.idx k⟩ := by
  intro k
  induction k with
  | zero =>
    intro fuel st _ _
    simp [ntTracePost]
  | succ k ih =>
    intro fuel st hk hnt
    cases fuel with
    | zero => omega
    | succ fuel =>
      rw [V2.pollLoop_step_v2 env url fuel st (by simpa using hnt 0 (Nat.succ_pos k))]
      rw [ih fuel ⟨st.idx + 1, st.trace ++ ntSegPost env url st.idx⟩ (by omega) ?_]
      · have h1 : fuel + 1 - (k + 1) = fuel - k := by omega
        have h2 : st.idx + 1 + k = st.idx + (k + 1) := by omega
        simp [h1, h2, ntTracePost, List.append_assoc]
      · intro j hj
        have h3 := hnt (j + 1) (by omega)
        have h4 : st.idx + (j + 1) = st.idx + 1 + j := by omega
        rw [h4] at h3
        simpa using h3

theorem V2.pollLoop_finished_v2 (env : Env) (url : String) (fuel : Nat) (st : St)
    (hok : (env st.idx).ok = true)
    (hf : (env st.idx).body.status_code = some "FINISHED") :
    V2.pollLoop env url (fuel + 1) st =
      (Except.ok (),
       ⟨st.idx + 1, st.trace ++ [.req (.get url), .logInfo "Media container is ready."]⟩) := by
  simp [V2.pollLoop, fetch, emit, hok, hf, List.append_assoc]

theorem V2.pollLoop_terminalError_v2 (env : Env) (url : String) (fuel : Nat) (st : St)
    (hok : (env st.idx).ok = true)
    (herr : (env st.idx).body.status_code = some "ERROR" ∨
      (env st.idx).body.status_code = some "EXPIRED") :
    V2.pollLoop env url (fuel + 1) st =
      (Except.error ("Media container processing failed with status: " ++
        jsStr (env st.idx).body.status_code ++ ". Status: " ++ jsStr (env st.idx).body.status),
       ⟨st.idx + 1, st.trace ++ [.req (.get url)]⟩) := by
  cases herr with
  | inl h => simp [V2.pollLoop, fetch, emit, hok, h, List.append_assoc]
  | inr h => simp [V2.pollLoop, fetch, emit, hok, h, List.append_assoc]

theorem V3.pollLoop_step_v3 (env : Env) (url : String) (n : Nat) (st : St)
    (h : nonTerminal (env st.idx)) :
    V3.pollLoop env url (n + 1) st =
      V3.pollLoop env url n ⟨st.idx + 1, st.trace ++ ntSegPost env url st.idx⟩ := by
  obtain ⟨h1, h2, h3, h4⟩ := h
  simp [V3.pollLoop, fetch, emit, ntSegPost, h1, beq_iff_eq, h2, h3, h4, List.append_assoc]

theorem V3.pollLoop_skip_v3 (env : Env) (url : String) :
    ∀ (k fuel : Nat) (st : St), k ≤ fuel →
    (∀ j, j < k → nonTerminal (env (st.idx + j))) →
    V3.pollLoop env url fuel st =
      V3.pollLoop env url (fuel - k) ⟨st.idx + k, st.trace ++ ntTracePost env url st.idx k⟩ := by
  intro k
  induction k with
  | zero =>
    intro fuel st _ _
    simp [ntTracePost]
  | succ k ih =>
    intro fuel st hk hnt
    cases fuel with
    | zero => omega
    | succ fuel =>
      rw [V3.pollLoop_step_v3 env url fuel st (by simpa using hnt 0 (Nat.succ_pos k))]
      rw [ih fuel ⟨st.idx + 1, st.trace ++ ntSegPost env url st.idx⟩ (by omega) ?_]
      · have h1 : fuel + 1 - (k + 1) = fuel - k := by omega
        have h2 : st.idx + 1 + k = st.idx + (k + 1) := by omega
        simp [h1, h2, ntTracePost, List.append_assoc]
      · intro j hj
        have h3 := hnt (j + 1) (by omega)
        have h4 : st.idx + (j + 1) = st.idx + 1 + j := by omega
        rw [h4] at h3
        simpa using h3

theorem V3.pollLoop_finished_v3 (env : Env) (url : String) (fuel : Nat) (st : St)
    (hok : (env st.idx).ok = true)
    (hf : (env st.idx).body.status_code = some "FINISHED") :
    V3.pollLoop env url (fuel + 1) st =
      (Except.ok (),
       ⟨st.idx + 1, st.trace ++ [.req (.get url), .logInfo "Media container is ready."]⟩) := by
  simp [V3.pollLoop, fetch, emit, hok, hf, List.append_assoc]

theorem V3.pollLoop_terminalError_v3 (env : Env) (url : String) (fuel : Nat) (st : St)
    (hok : (env st.idx).ok = true)
    (herr : (env st.idx).body.status_code = some "ERROR" ∨
      (env st.idx).body.status_code = some "EXPIRED") :
    V3.pollLoop env url (fuel + 1) st =
      (Except.error ("Media container processing failed with status: " ++
        jsStr (env st.idx).body.status),
       ⟨st.idx + 1, st.trace ++ [.req (.get url)]⟩) := by
  cases herr with
  | inl h => simp [V3.pollLoop, fetch, emit, hok, h, List.append_assoc]
  | inr h => simp [V3.pollLoop, fetch, emit, hok, h, List.append_assoc]

theorem countPolls_ntSegPost (env : Env) (url : String) (i : Nat) :
    countPolls (ntSegPost env url i) = 1 := rfl

theorem countPolls_ntTracePost (env : Env) (url : String) :
    ∀ k i, countPolls (ntTracePost env url i k) = k := by
  intro k
  induction k with
  | zero => intro i; rfl
  | succ k ih =>
    intro i
    rw [ntTracePost, countPolls_append, countPolls_ntSegPost, ih]
    omega

theorem inProgress_nonTerminal (r : HttpResponse) (hok : r.ok = true)
    (h : r.body.status_code = some "IN_PROGRESS") : nonTerminal r := by
  refine ⟨hok, ?_, ?_, ?_⟩ <;> simp [h]

/-- When the initial `media_publish` POST succeeds, variant 1's
`pollForCompletion` becomes its 10-iteration poll loop, one fetch consumed. -/
theorem V1.pollForCompletion_run (env : Env) (url : String)
    (form : List (String × String)) (a b cid : String)
    (hinit : (env 0).ok = true ∧ (env 0).body.idOk = true) :
    V1.pollForCompletion env url "POST" form a b cid St.init =
      V1.pollLoop env
        (BASE_URL ++ "/" ++ cid ++ "?fields=status_code,status&access_token=" ++ a)
        ((env 0).body.id.getD "") 10 ⟨1, [Event.req (Req.postForm url form)]⟩ := by
  simp [V1.pollForCompletion, fetch, St.init, hinit.1, hinit.2]

/-- Claim C4: if a status poll returns `status_code` `"ERROR"` or
`"EXPIRED"` after `k` earlier non-terminal polls, the readiness poller fails
immediately with an error that embeds the platform's status text, and it
performs exactly `k + 1` polls — none after the terminal one.  Stated for
variant 1 `pollForCompletion` (polls are fetches 1, 2, …) and variant 2
`pollForContainerReady` (polls are fetches 0, 1, …). -/
theorem C4_terminal_error_stops_polling :
    (∀ env url form a b cid k, k < 10 →
      (env 0).ok = true → (env 0).body.idOk = true →
      (∀ j, j < k → nonTerminal (env (1 + j))) →
      (env (1 + k)).ok = true →
      ((env (1 + k)).body.status_code = some "ERROR" ∨
        (env (1 + k)).body.status_code = some "EXPIRED") →
      (V1.pollForCompletion env url "POST" form a b cid St.init).1 =
        Except.error ("Media publishing failed with status: " ++
          jsStr (env (1 + k)).body.status) ∧
      countPolls (V1.pollForCompletion env url "POST" form a b cid St.init).2.trace = k + 1) ∧
    (∀ env a cid k, k < 20 →
      (∀ j, j < k → nonTerminal (env j)) →
      (env k).ok = true →
      ((env k).body.status_code = some "ERROR" ∨
        (env k).body.status_code = some "EXPIRED") →
      (V2.pollForContainerReady env a cid St.init).1 =
        Except.error ("Media container processing failed with status: " ++
          jsStr (env k).body.status_code ++ ". Status: " ++ jsStr (env k).body.status) ∧
      countPolls (V2.pollForContainerReady env a cid St.init).2.trace = k + 1) := by
  constructor
  · intro env url form a b cid k hk h0 h0id hnt hok herr
    rw [V1.pollForCompletion_run env url form a b cid ⟨h0, h0id⟩]
    rw [V1.pollLoop_skip_v1 env _ _ k 10 ⟨1, [Event.req (Req.postForm url form)]⟩ (by omega)
      (by intro j hj; simpa using hnt j hj)]
    have h10 : 10 - k = (9 - k) + 1 := by omega
    rw [h10, V1.pollLoop_terminalError_v1 env _ _ (9 - k) _ (by simpa using hok)
      (by simpa using herr)]
    refine ⟨by simp, ?_⟩
    simp only [countPolls_append, countPolls_ntTracePre, countPolls_ntSegPre]
    have hc : countPolls [Event.req (Req.postForm url form)] = 0 := rfl
    omega
  · intro env a cid k hk hnt hok herr
    unfold V2.pollForContainerReady
    rw [V2.pollLoop_skip_v2 env _ k 20 St.init (by omega)
      (by intro j hj; simpa [St.init] using hnt j hj)]
    have h20 : 20 - k = (19 - k) + 1 := by omega
    rw [h20, V2.pollLoop_terminalError_v2 env _ (19 - k) _ (by simpa [St.init] using hok)
      (by simpa [St.init] using herr)]
    refine ⟨by simp [St.init], ?_⟩
    simp only [St.init, countPolls_append, countPolls_ntTracePost]
    have hc0 : countPolls ([] : List Event) = 0 := rfl
    have hc1 : countPolls [Event.req (Req.get (BASE_URL ++ "/" ++ cid ++
      "?fields=status_code,status&access_token=" ++ a))] = 1 := rfl
    omega

/-- Witness for C4: with the first poll reporting `ERROR`, variant 2's
poller fails at once with the embedded status text after exactly one poll. -/
theorem C4_witness :
    (V2.pollForContainerReady (fun _ => respStatus "ERROR") "t" "c" St.init).1 =
      Except.error
        "Media container processing failed with status: ERROR. Status: st-ERROR" ∧
    countPolls (V2.pollForContainerReady (fun _ => respStatus "ERROR") "t" "c" St.init).2.trace
      = 1 := by
  have h := (C4_terminal_error_stops_polling.2 (fun _ => respStatus "ERROR") "t" "c" 0
    (by omega) (by intro j hj; omega) (by decide) (Or.inl (by decide)))
  exact ⟨by rw [h.1]; rfl, h.2⟩

/-- Claim C5: if every status poll returns a non-terminal status, the
readiness poller performs exactly `maxPolls` polls (10 in variant 1, 20 in
variant 2) and then fails with a timeout error whose message differs from
every message used for platform-reported `ERROR`/`EXPIRED` failures. -/
theorem C5_timeout_after_max_polls :
    (∀ env url form a b cid,
      (env 0).ok = true → (env 0).body.idOk = true →
      (∀ j, j < 10 → nonTerminal (env (1 + j))) →
      (V1.pollForCompletion env url "POST" form a b cid St.init).1 =
        Except.error "Publishing timed out." ∧
      countPolls (V1.pollForCompletion env url "POST" form a b cid St.init).2.trace = 10 ∧
      (∀ s, "Publishing timed out." ≠ "Media publishing failed with status: " ++ s)) ∧
    (∀ env a cid,
      (∀ j, j < 20 → nonTerminal (env j)) →
      (V2.pollForContainerReady env a cid St.init).1 =
        Except.error "Media container processing timed out." ∧
      countPolls (V2.pollForContainerReady env a cid St.init).2.trace = 20 ∧
      (∀ s s2, "Media container processing timed out." ≠
        "Media container processing failed with status: " ++ s ++ ". Status: " ++ s2)) := by
  constructor
  · intro env url form a b cid h0 h0id hnt
    rw [V1.pollForCompletion_run env url form a b cid ⟨h0, h0id⟩]
    rw [V1.pollLoop_skip_v1 env _ _ 10 10 ⟨1, [Event.req (Req.postForm url form)]⟩ (by omega)
      (by intro j hj; simpa using hnt j hj)]
    refine ⟨by simp [V1.pollLoop], ?_, ?_⟩
    · show countPolls ((V1.pollLoop env _ _ 0 _).2.trace) = 10
      simp only [V1.pollLoop, countPolls_append, countPolls_ntTracePre]
      rfl
    · intro s h
      have h1 := congrArg String.length h
      have h2 : "Publishing timed out.".length = 21 := rfl
      have h3 : "Media publishing failed with status: ".length = 37 := rfl
      simp [String.length_append] at h1
      omega
  · intro env a cid hnt
    unfold V2.pollForContainerReady
    rw [V2.pollLoop_skip_v2 env _ 20 20 St.init (by omega)
      (by intro j hj; simpa [St.init] using hnt j hj)]
    refine ⟨by simp [V2.pollLoop], ?_, ?_⟩
    · show countPolls ((V2.pollLoop env _ 0 _).2.trace) = 20
      simp only [St.init, V2.pollLoop, countPolls_append, countPolls_ntTracePost]
      rfl
    · intro s s2 h
      have h1 := congrArg String.length h
      have h2 : "Media container processing timed out.".length = 37 := rfl
      have h3 : "Media container processing failed with status: ".length = 47 := rfl
      have h4 : ". Status: ".length = 10 := rfl
      simp [String.length_append] at h1
      omega

/-- Witness for C5: with every poll reporting `IN_PROGRESS`, variant 2's
poller times out after exactly 20 polls. -/
theorem C5_witness :
    (V2.pollForContainerReady (fun _ => respStatus "IN_PROGRESS") "t" "c" St.init).1 =
      Except.error "Media container processing timed out." ∧
    countPolls
      (V2.pollForContainerReady (fun _ => respStatus "IN_PROGRESS") "t" "c" St.init).2.trace
      = 20 := by
  have h := C5_timeout_after_max_polls.2 (fun _ => respStatus "IN_PROGRESS") "t" "c"
    (by intro j hj; show nonTerminal (respStatus "IN_PROGRESS"); decide)
  exact ⟨h.1, h.2.1⟩

/-- When the container-create response succeeds, variant 1's `uploadMedia`
returns the response's `id` after its single POST (whose form depends on the
media type). -/
theorem V1.uploadMedia_ok (env : Env) (a b c u : String) (k : MediaType) (st : St)
    (h1 : (env st.idx).ok = true) (h2 : (env st.idx).body.idOk = true) :
    ∃ f, V1.uploadMedia env a b c u k st =
      (Except.ok ((env st.idx).body.id.getD ""),
       ⟨st.idx + 1,
        st.trace ++ [Event.req (Req.postForm (BASE_URL ++ "/" ++ b ++ "/media") f)]⟩) := by
  cases k with
  | image =>
    exact ⟨[("access_token", a), ("caption", c), ("image_url", u)],
      by simp [V1.uploadMedia, fetch, h1, h2]⟩
  | video =>
    exact ⟨[("access_token", a), ("caption", c), ("media_type", "VIDEO"), ("video_url", u)],
      by simp [V1.uploadMedia, fetch, h1, h2]⟩

/-- Variant 1 `pollForCompletion` from an arbitrary state: when the initial
POST succeeds it becomes the 10-iteration poll loop. -/
theorem V1.pollForCompletion_run_at (env : Env) (url : String)
    (form : List (String × String)) (a b cid : String) (st : St)
    (h1 : (env st.idx).ok = true) (h2 : (env st.idx).body.idOk = true) :
    V1.pollForCompletion env url "POST" form a b cid st =
      V1.pollLoop env (statusUrlOf a cid) ((env st.idx).body.id.getD "") 10
        ⟨st.idx + 1, st.trace ++ [Event.req (Req.postForm url form)]⟩ := by
  simp [V1.pollForCompletion, fetch, statusUrlOf, h1, h2]

/-- Claim C6: if the status polls return `IN_PROGRESS` on the first `N - 1`
polls and `FINISHED` on the `N`-th (1 ≤ N ≤ maxPolls), the publish operation
succeeds and the poller performs exactly `N` polls with the fixed 5000 ms
delay between consecutive polls (the delays are visible in the exact traces:
`ntSegPre` sleeps before each variant-1 poll, `ntSegPost` sleeps after each
retried variant-3 poll).  Stated for the full variant 1 `publishToInstagram`
(polls are fetches 2, 3, …) and for variant 3 `pollForContainerReady` (polls
are fetches 0, 1, …). -/
theorem C6_success_after_exactly_N_polls :
    (∀ env a b c u k N, 1 ≤ N → N ≤ 10 →
      (env 0).ok = true → (env 0).body.idOk = true →
      (env 1).ok = true → (env 1).body.idOk = true →
      (∀ j, j < N - 1 → (env (2 + j)).ok = true ∧
        (env (2 + j)).body.status_code = some "IN_PROGRESS") →
      (env (2 + (N - 1))).ok = true →
      (env (2 + (N - 1))).body.status_code = some "FINISHED" →
      ∃ f,
        V1.publishToInstagram env a b c u k =
          (Except.ok ((env 1).body.id.getD ""),
           ⟨N + 2,
            Event.req (Req.postForm (BASE_URL ++ "/" ++ b ++ "/media") f) ::
            Event.req (Req.postForm (BASE_URL ++ "/" ++ b ++ "/media_publish")
              [("access_token", a), ("creation_id", (env 0).body.id.getD "")]) ::
            (ntTracePre (statusUrlOf a ((env 0).body.id.getD "")) (N - 1) ++
             ntSegPre (statusUrlOf a ((env 0).body.id.getD "")))⟩) ∧
        countPolls (V1.publishToInstagram env a b c u k).2.trace = N) ∧
    (∀ env a cid N, 1 ≤ N → N ≤ 20 →
      (∀ j, j < N - 1 → (env j).ok = true ∧
        (env j).body.status_code = some "IN_PROGRESS") →
      (env (N - 1)).ok = true →
      (env (N - 1)).body.status_code = some "FINISHED" →
      V3.pollForContainerReady env a cid St.init =
        (Except.ok (),
         ⟨N, ntTracePost env (statusUrlOf a cid) 0 (N - 1) ++
           [.req (.get (statusUrlOf a cid)), .logInfo "Media container is ready."]⟩) ∧
      countPolls (V3.pollForContainerReady env a cid St.init).2.trace = N) := by
  constructor
  · intro env a b c u k N hN1 hN10 h0 h0id h1 h1id hnt hfok hfin
    obtain ⟨f, hup⟩ := V1.uploadMedia_ok env a b c u k St.init h0 h0id
    refine ⟨f, ?_⟩
    have hbody : V1.publishBody env a b c u k St.init =
        V1.pollForCompletion env (BASE_URL ++ "/" ++ b ++ "/media_publish") "POST"
          [("access_token", a), ("creation_id", (env 0).body.id.getD "")] a b
          ((env 0).body.id.getD "")
          ⟨1, [Event.req (Req.postForm (BASE_URL ++ "/" ++ b ++ "/media") f)]⟩ := by
      unfold V1.publishBody V1.publishMediaContainer
      rw [hup]
      rfl
    have hpoll : V1.pollForCompletion env (BASE_URL ++ "/" ++ b ++ "/media_publish") "POST"
        [("access_token", a), ("creation_id", (env 0).body.id.getD "")] a b
        ((env 0).body.id.getD "")
        ⟨1, [Event.req (Req.postForm (BASE_URL ++ "/" ++ b ++ "/media") f)]⟩ =
        V1.pollLoop env (statusUrlOf a ((env 0).body.id.getD ""))
          ((env 1).body.id.getD "") 10
          ⟨2, [Event.req (Req.postForm (BASE_URL ++ "/" ++ b ++ "/media") f),
               Event.req (Req.postForm (BASE_URL ++ "/" ++ b ++ "/media_publish")
                 [("access_token", a), ("creation_id", (env 0).body.id.getD "")])]⟩ :=
      V1.pollForCompletion_run_at env _ _ a b _ _ h1 h1id
    have hskip : V1.pollLoop env (statusUrlOf a ((env 0).body.id.getD ""))
        ((env 1).body.id.getD "") 10
        ⟨2, [Event.req (Req.postForm (BASE_URL ++ "/" ++ b ++ "/media") f),
             Event.req (Req.postForm (BASE_URL ++ "/" ++ b ++ "/media_publish")
               [("access_token", a), ("creation_id", (env 0).body.id.getD "")])]⟩ =
        V1.pollLoop env (statusUrlOf a ((env 0).body.id.getD ""))
          ((env 1).body.id.getD "") (10 - (N - 1))
          ⟨2 + (N - 1),
           [Event.req (Req.postForm (BASE_URL ++ "/" ++ b ++ "/media") f),
            Event.req (Req.postForm (BASE_URL ++ "/" ++ b ++ "/media_publish")
              [("access_token", a), ("creation_id", (env 0).body.id.getD "")])] ++
           ntTracePre (statusUrlOf a ((env 0).body.id.getD "")) (N - 1)⟩ :=
      V1.pollLoop_skip_v1 env _ _ (N - 1) 10 _ (by omega)
        (by intro j hj; exact inProgress_nonTerminal _ (hnt j hj).1 (hnt j hj).2)
    have hfin2 : V1.pollLoop env (statusUrlOf a ((env 0).body.id.getD ""))
        ((env 1).body.id.getD "") (10 - (N - 1))
        ⟨2 + (N - 1),
         [Event.req (Req.postForm (BASE_URL ++ "/" ++ b ++ "/media") f),
          Event.req (Req.postForm (BASE_URL ++ "/" ++ b ++ "/media_publish")
            [("access_token", a), ("creation_id", (env 0).body.id.getD "")])] ++
         ntTracePre (statusUrlOf a ((env 0).body.id.getD "")) (N - 1)⟩ =
        (Except.ok ((env 1).body.id.getD ""),
         ⟨2 + (N - 1) + 1,
          ([Event.req (Req.postForm (BASE_URL ++ "/" ++ b ++ "/media") f),
            Event.req (Req.postForm (BASE_URL ++ "/" ++ b ++ "/media_publish")
              [("access_token", a), ("creation_id", (env 0).body.id.getD "")])] ++
           ntTracePre (statusUrlOf a ((env 0).body.id.getD "")) (N - 1)) ++
          ntSegPre (statusUrlOf a ((env 0).body.id.getD ""))⟩) := by
      have h10 : 10 - (N - 1) = (10 - N) + 1 := by omega
      rw [h10]
      exact V1.pollLoop_finished_v1 env _ _ (10 - N) _ hfok hfin
    unfold V1.publishToInstagram
    rw [hbody, hpoll, hskip, hfin2]
    dsimp only
    have hidx : 2 + (N - 1) + 1 = N + 2 := by omega
    rw [hidx]
    constructor
    · simp [List.append_assoc]
    · simp only [countPolls_append, countPolls_ntTracePre, countPolls_ntSegPre]
      have hc : countPolls [Event.req (Req.postForm (BASE_URL ++ "/" ++ b ++ "/media") f),
        Event.req (Req.postForm (BASE_URL ++ "/" ++ b ++ "/media_publish")
          [("access_token", a), ("creation_id", (env 0).body.id.getD "")])] = 0 := rfl
      omega
  · intro env a cid N hN1 hN20 hnt hfok hfin
    unfold V3.pollForContainerReady
    rw [show (BASE_URL ++ "/" ++ cid ++ "?fields=status_code,status&access_token=" ++ a) =
      statusUrlOf a cid from rfl]
    have hskip : V3.pollLoop env (statusUrlOf a cid) 20 St.init =
        V3.pollLoop env (statusUrlOf a cid) (20 - (N - 1))
          ⟨0 + (N - 1), ntTracePost env (statusUrlOf a cid) 0 (N - 1)⟩ :=
      V3.pollLoop_skip_v3 env _ (N - 1) 20 St.init (by omega)
        (by
          intro j hj
          have he : St.init.idx + j = j := by simp [St.init]
          rw [he]
          exact inProgress_nonTerminal _ (hnt j hj).1 (hnt j hj).2)
    have hfin2 : V3.pollLoop env (statusUrlOf a cid) (20 - (N - 1))
        ⟨0 + (N - 1), ntTracePost env (statusUrlOf a cid) 0 (N - 1)⟩ =
        (Except.ok (),
         ⟨0 + (N - 1) + 1,
          ntTracePost env (statusUrlOf a cid) 0 (N - 1) ++
            [.req (.get (statusUrlOf a cid)), .logInfo "Media container is ready."]⟩) := by
      have h20 : 20 - (N - 1) = (20 - N) + 1 := by omega
      rw [h20]
      exact V3.pollLoop_finished_v3 env _ (20 - N) _ (by simpa using hfok) (by simpa using hfin)
    rw [hskip, hfin2]
    dsimp only
    have hidx : 0 + (N - 1) + 1 = N := by omega
    rw [hidx]
    refine ⟨rfl, ?_⟩
    simp only [countPolls_append, countPolls_ntTracePost]
    have hc : countPolls [Event.req (Req.get (statusUrlOf a cid)),
      Event.logInfo "Media container is ready."] = 1 := rfl
    omega

/-- Witness for C6: with two `IN_PROGRESS` polls and a `FINISHED` third,
variant 3's poller succeeds after exactly 3 polls. -/
theorem C6_witness :
    (V3.pollForContainerReady
      (fun n => if n < 2 then respStatus "IN_PROGRESS" else respStatus "FINISHED")
      "t" "c" St.init).1 = Except.ok () ∧
    countPolls (V3.pollForContainerReady
      (fun n => if n < 2 then respStatus "IN_PROGRESS" else respStatus "FINISHED")
      "t" "c" St.init).2.trace = 3 := by
  have h := C6_success_after_exactly_N_polls.2
    (fun n => if n < 2 then respStatus "IN_PROGRESS" else respStatus "FINISHED")
    "t" "c" 3 (by omega) (by omega)
    (by intro j hj; interval_cases j <;> exact ⟨by decide, by decide⟩)
    (by decide) (by decide)
  exact ⟨by rw [h.1], h.2⟩

/-- Claim C7, counterexample: the claim quantifies over every
`publishToInstagram`, but the URL-reference variant (variant 1) does not
decode or validate the data URI at all: on a data URI with no base64 payload
after the comma it still issues the container-creation POST, so an outbound
HTTP call is performed. -/
theorem C7_counterexample :
    (jsSplit ',' "data:image/png;base64,").getD 1 "" = "" ∧
    countReqs (V1.publishToInstagram envAllFail "t" "b" "c" "data:image/png;base64,"
      MediaType.image).2.trace = 1 := by
  constructor
  · rfl
  · rfl

/-- Claim C7 as amended: in the variants that decode the data URI (variants
2 and 3), an input whose `mediaDataUri` has no base64 payload after the
comma makes `publishToInstagram` fail immediately with the input error
`"Invalid data URI provided."` (wrapped once by the orchestrator) and no
outbound HTTP call whatsoever is performed — the whole trace is the single
`console.error` of the catch block.  (The URL-reference variant 1 instead
forwards the unvalidated URI to the platform; see the counterexample.) -/
theorem C7_invalid_data_uri_no_http_call :
    ∀ env ex a b c u k, (jsSplit ',' u).getD 1 "" = "" →
      (V2.publishToInstagram env ex a b c u k =
        (Except.error "Instagram publishing failed: Invalid data URI provided.",
         ⟨0, [Event.logError "Error publishing to Instagram: Invalid data URI provided."]⟩) ∧
       countReqs (V2.publishToInstagram env ex a b c u k).2.trace = 0) ∧
      (V3.publishToInstagram env ex a b c u k =
        (Except.error "Instagram publishing failed: Invalid data URI provided.",
         ⟨0, [Event.logError "Error publishing to Instagram: Invalid data URI provided."]⟩) ∧
       countReqs (V3.publishToInstagram env ex a b c u k).2.trace = 0) := by
  intro env ex a b c u k h
  have h9 : (jsSplit ',' u)[1]?.getD "" = "" := by simpa [List.getD] using h
  have h2 : V2.publishToInstagram env ex a b c u k =
      (Except.error "Instagram publishing failed: Invalid data URI provided.",
       ⟨0, [Event.logError "Error publishing to Instagram: Invalid data URI provided."]⟩) := by
    simp [V2.publishToInstagram, V2.publishBody, V2.uploadMedia, emit, St.init, h, h9]
  have h3 : V3.publishToInstagram env ex a b c u k =
      (Except.error "Instagram publishing failed: Invalid data URI provided.",
       ⟨0, [Event.logError "Error publishing to Instagram: Invalid data URI provided."]⟩) := by
    simp [V3.publishToInstagram, V3.publishBody, V3.uploadMedia, emit, St.init, h, h9]
  exact ⟨⟨h2, by rw [h2]; rfl⟩, ⟨h3, by rw [h3]; rfl⟩⟩

/-- Witness for C7: the concrete input `"nocomma"` has no payload after a
comma, and variant 2 rejects it without any HTTP request. -/
theorem C7_witness :
    V2.publishToInstagram envAllFail ⟨fun _ => [], fun _ => none⟩ "t" "b" "c" "nocomma"
      MediaType.image =
      (Except.error "Instagram publishing failed: Invalid data URI provided.",
       ⟨0, [Event.logError "Error publishing to Instagram: Invalid data URI provided."]⟩) :=
  ((C7_invalid_data_uri_no_http_call envAllFail ⟨fun _ => [], fun _ => none⟩ "t" "b" "c"
    "nocomma" MediaType.image (by decide)).1).1

/-- Claim C8: when the file-type prober fails to identify a MIME type for
the decoded buffer, the upload is not aborted — the binary upload request is
still issued, with a media-kind-derived default `Content-Type`: variant 2
uses `image/jpeg` for images (direct-binary POST) and
`application/octet-stream` for the video byte-upload; variant 3 uses
`image/jpeg` for images and `video/mp4` for videos on its session
byte-upload. -/
theorem C8_prober_failure_falls_back :
    ∀ env ex a b c u, (jsSplit ',' u).getD 1 "" ≠ "" →
      ex.fileTypeFromBuffer (ex.bufferFrom ((jsSplit ',' u).getD 1 "")) = none →
      (Event.req (Req.postBinary
          (BASE_URL ++ "/" ++ b ++ "/media" ++ "?" ++
            formToQuery [("caption", c), ("access_token", a)])
          [("Content-Type", "image/jpeg")]
          (ex.bufferFrom ((jsSplit ',' u).getD 1 ""))) ∈
        (V2.uploadMedia env ex a b c u MediaType.image St.init).2.trace) ∧
      ((env 0).ok = true → (env 0).body.idOk = true →
        (Event.req (Req.postBinary (BASE_URL ++ "/" ++ ((env 0).body.id.getD ""))
          [("Authorization", "OAuth " ++ a),
           ("Content-Type", "application/octet-stream"),
           ("Content-Length", toString (ex.bufferFrom ((jsSplit ',' u).getD 1 "")).length)]
          (ex.bufferFrom ((jsSplit ',' u).getD 1 ""))) ∈
        (V2.uploadMedia env ex a b c u MediaType.video St.init).2.trace)) ∧
      (∀ k, (env 0).ok = true → (env 0).body.idOk = true →
        (Event.req (Req.postBinary (BASE_URL ++ "/" ++ ((env 0).body.id.getD ""))
          [("Authorization", "OAuth " ++ a),
           ("Content-Type",
             (match k with | MediaType.image => "image/jpeg" | MediaType.video => "video/mp4")),
           ("Content-Length", toString (ex.bufferFrom ((jsSplit ',' u).getD 1 "")).length),
           ("X-Entity-Name", "upload." ++ "bin"),
           ("X-Entity-Length", toString (ex.bufferFrom ((jsSplit ',' u).getD 1 "")).length),
           ("offset", "0")]
          (ex.bufferFrom ((jsSplit ',' u).getD 1 ""))) ∈
        (V3.uploadMedia env ex a b c u k St.init).2.trace)) := by
  intro env ex a b c u hu hprobe
  have hu9 : (jsSplit ',' u)[1]?.getD "" ≠ "" := by simpa [List.getD] using hu
  have hp9 : ex.fileTypeFromBuffer (ex.bufferFrom ((jsSplit ',' u)[1]?.getD "")) = none := by
    simpa [List.getD] using hprobe
  refine ⟨?_, ?_, ?_⟩
  · cases hok : (env 0).ok <;> cases hid : (env 0).body.idOk <;>
      simp [V2.uploadMedia, fetch, emit, St.init, hu, hu9, hprobe, hp9, hok, hid]
  · intro hok hid
    cases h1 : (env 1).ok <;> cases h2 : (env 1).body.success <;>
      simp [V2.uploadMedia, fetch, emit, St.init, hu, hu9, hprobe, hp9, hok, hid, h1, h2]
  · intro k hok hid
    cases k <;>
      cases h1 : (env 1).ok <;> cases h2 : (env 1).body.success <;>
        first
        | (cases h3 : (env 2).ok <;> cases h4 : (env 2).body.idOk <;>
            simp [V3.uploadMedia, fetch, emit, St.init, hu, hu9, hprobe, hp9, hok, hid,
              h1, h2, h3, h4])
        | simp [V3.uploadMedia, fetch, emit, St.init, hu, hu9, hprobe, hp9, hok, hid, h1, h2]

/-- Witness for C8: a concrete environment and prober that always fails;
variant 2's image upload goes out with `Content-Type: image/jpeg`. -/
theorem C8_witness :
    Event.req (Req.postBinary
      (BASE_URL ++ "/" ++ "b" ++ "/media" ++ "?" ++
        formToQuery [("caption", "c"), ("access_token", "t")])
      [("Content-Type", "image/jpeg")] [7]) ∈
    (V2.uploadMedia env200NoId ⟨fun _ => [7], fun _ => none⟩ "t" "b" "c" "x,AAA"
      MediaType.image St.init).2.trace :=
  (C8_prober_failure_falls_back env200NoId ⟨fun _ => [7], fun _ => none⟩ "t" "b" "c" "x,AAA"
    (by decide) rfl).1

/-! Stage-trace lemmas for the ordering claim. -/

theorem mediaUrl_ne_publishUrl (b : String) :
    (BASE_URL ++ "/" ++ b ++ "/media") ≠ (BASE_URL ++ "/" ++ b ++ "/media_publish") := by
  intro h
  have h1 := congrArg String.length h
  have h2 : "/media".length = 6 := rfl
  have h3 : "/media_publish".length = 14 := rfl
  simp [String.length_append] at h1
  omega

/-- Variant 2's upload stage issues no status poll and no `media_publish`
POST, whatever the environment. -/
theorem V2.uploadMedia_counts (env : Env) (ex : Ext) (a b c u : String)
    (k : MediaType) (st : St) :
    countPolls (V2.uploadMedia env ex a b c u k st).2.trace = countPolls st.trace ∧
    countPublish b (V2.uploadMedia env ex a b c u k st).2.trace = countPublish b st.trace := by
  have hne : ((BASE_URL ++ "/" ++ b ++ "/media" : String) ==
      BASE_URL ++ "/" ++ b ++ "/media_publish") = false := by
    simp [mediaUrl_ne_publishUrl b]
  by_cases hv : (jsSplit ',' u)[1]?.getD "" = ""
  · cases k <;>
      simp [V2.uploadMedia, hv]
  · cases k with
    | image =>
      cases hok : (env st.idx).ok <;> cases hid : (env st.idx).body.idOk <;>
        simp [V2.uploadMedia, fetch, emit, hv, hok, hid, countPolls_append,
          countPublish_append, countPolls, countPublish, List.countP_cons,
          isPollEvent, isPublishEvent]
    | video =>
      cases hok : (env st.idx).ok <;> cases hid : (env st.idx).body.idOk <;>
        cases h1 : (env (st.idx + 1)).ok <;> cases h2 : (env (st.idx + 1)).body.success <;>
          simp [V2.uploadMedia, fetch, emit, hv, hok, hid, h1, h2, countPolls_append,
            countPublish_append, countPolls, countPublish, List.countP_cons,
            isPollEvent, isPublishEvent, hne]

/-- Variant 2's poll loop never issues a `media_publish` POST. -/
theorem V2.pollLoop_counts_v2 (env : Env) (url b2 : String) :
    ∀ fuel st, countPublish b2 (V2.pollLoop env url fuel st).2.trace =
      countPublish b2 st.trace := by
  intro fuel
  induction fuel with
  | zero => intro st; rfl
  | succ n ih =>
    intro st
    cases hok : (env st.idx).ok
    · simp [V2.pollLoop, fetch, emit, hok, countPublish_append, countPublish,
        List.countP_cons, isPublishEvent]
    · by_cases hf : (env st.idx).body.status_code = some "FINISHED"
      · simp [V2.pollLoop, fetch, emit, hok, hf, countPublish_append, countPublish,
          List.countP_cons, isPublishEvent]
      · by_cases he : (env st.idx).body.status_code = some "ERROR"
        · simp [V2.pollLoop, fetch, emit, hok, hf, he, countPublish_append, countPublish,
            List.countP_cons, isPublishEvent]
        · by_cases hx : (env st.idx).body.status_code = some "EXPIRED"
          · simp [V2.pollLoop, fetch, emit, hok, hf, he, hx, countPublish_append,
              countPublish, List.countP_cons, isPublishEvent]
          · rw [V2.pollLoop_step_v2 env url n st ⟨hok, hf, he, hx⟩, ih]
            simp [ntSegPost, countPublish_append, countPublish, List.countP_cons,
              isPublishEvent]

/-- Variant 2's poll loop returns success only when the status poll it just
performed (the fetch at index `st2.idx - 1`) came back HTTP-ok with
`status_code = FINISHED`. -/
theorem V2.pollLoop_ok_finished_v2 (env : Env) (url : String) :
    ∀ fuel st st2, V2.pollLoop env url fuel st = (Except.ok (), st2) →
      ∃ i, st.idx ≤ i ∧ st2.idx = i + 1 ∧ (env i).ok = true ∧
        (env i).body.status_code = some "FINISHED" := by
  intro fuel
  induction fuel with
  | zero => intro st st2 h; simp [V2.pollLoop] at h
  | succ n ih =>
    intro st st2 h
    cases hok : (env st.idx).ok
    · simp [V2.pollLoop, fetch, emit, hok] at h
    · by_cases hf : (env st.idx).body.status_code = some "FINISHED"
      · refine ⟨st.idx, Nat.le_refl _, ?_, hok, hf⟩
        simp [V2.pollLoop, fetch, emit, hok, hf] at h
        rw [← h]
      · by_cases he : (env st.idx).body.status_code = some "ERROR"
        · simp [V2.pollLoop, fetch, emit, hok, hf, he] at h
        · by_cases hx : (env st.idx).body.status_code = some "EXPIRED"
          · simp [V2.pollLoop, fetch, emit, hok, hf, he, hx] at h
          · rw [V2.pollLoop_step_v2 env url n st ⟨hok, hf, he, hx⟩] at h
            obtain ⟨i, h1, h2, h3, h4⟩ := ih _ _ h
            exact ⟨i, by simp at h1; omega, h2, h3, h4⟩

/-- The first event variant 2's publisher records is the `media_publish`
POST. -/
theorem V2.publishMediaContainer_trace (env : Env) (a b cid : String) (st : St) :
    ∃ δ, (V2.publishMediaContainer env a b cid st).2.trace =
      st.trace ++ (Event.req (Req.postForm (BASE_URL ++ "/" ++ b ++ "/media_publish")
        [("access_token", a), ("creation_id", cid)]) :: δ) := by
  cases hok : (env st.idx).ok
  · exact ⟨[Event.logError ("Instagram API Error (publishMediaContainer): " ++
      renderApiError (env st.idx).body.error)],
      by simp [V2.publishMediaContainer, fetch, emit, hok, List.append_assoc]⟩
  · cases hid : (env st.idx).body.idOk
    · exact ⟨[Event.logError ("Instagram API Error (publishMediaContainer): " ++
        renderApiError (env st.idx).body.error)],
        by simp [V2.publishMediaContainer, fetch, emit, hok, hid, List.append_assoc]⟩
    · exact ⟨[Event.logInfo ("Successfully published post with ID: " ++
        (env st.idx).body.id.getD "")],
        by simp [V2.publishMediaContainer, fetch, emit, hok, hid, List.append_assoc]⟩

/-- Claim C2 as amended (poll-then-publish variant 2): no status poll is
issued before container creation has returned an id (the upload stage's
trace contains no poll, and when the upload fails nothing else runs), and
the `media_publish` POST is issued only after the readiness poller has
returned success — which happens only when the poll at fetch `i` returned
`FINISHED`; the publish POST then appears strictly after the poller's
trace. -/
theorem C2_stage_order_poll_then_publish :
    ∀ env ex a b c u k,
      (∀ m st1, V2.uploadMedia env ex a b c u k St.init = (Except.error m, st1) →
        countPolls (V2.publishToInstagram env ex a b c u k).2.trace = 0 ∧
        countPublish b (V2.publishToInstagram env ex a b c u k).2.trace = 0) ∧
      (∀ cid st1 m st2, V2.uploadMedia env ex a b c u k St.init = (Except.ok cid, st1) →
        V2.pollForContainerReady env a cid st1 = (Except.error m, st2) →
        countPolls st1.trace = 0 ∧
        countPublish b (V2.publishToInstagram env ex a b c u k).2.trace = 0) ∧
      (∀ cid st1 st2, V2.uploadMedia env ex a b c u k St.init = (Except.ok cid, st1) →
        V2.pollForContainerReady env a cid st1 = (Except.ok (), st2) →
        countPolls st1.trace = 0 ∧
        countPublish b st2.trace = 0 ∧
        (∃ i, st1.idx ≤ i ∧ st2.idx = i + 1 ∧ (env i).ok = true ∧
          (env i).body.status_code = some "FINISHED") ∧
        (∃ δ, (V2.publishToInstagram env ex a b c u k).2.trace =
          st2.trace ++ (Event.req (Req.postForm (BASE_URL ++ "/" ++ b ++ "/media_publish")
            [("access_token", a), ("creation_id", cid)]) :: δ))) := by
  intro env ex a b c u k
  have hcU := V2.uploadMedia_counts env ex a b c u k St.init
  refine ⟨?_, ?_, ?_⟩
  · intro m st1 h
    rw [h] at hcU
    have h1 : countPolls st1.trace = 0 := hcU.1.trans rfl
    have h2 : countPublish b st1.trace = 0 := hcU.2.trans rfl
    have ht : (V2.publishToInstagram env ex a b c u k).2.trace =
        st1.trace ++ [Event.logError ("Error publishing to Instagram: " ++ m)] := by
      simp [V2.publishToInstagram, V2.publishBody, h, emit]
    rw [ht]
    constructor
    · rw [countPolls_append, h1]; rfl
    · rw [countPublish_append, h2]; rfl
  · intro cid st1 m st2 h hq
    rw [h] at hcU
    have h1 : countPolls st1.trace = 0 := hcU.1.trans rfl
    have h2 : countPublish b st1.trace = 0 := hcU.2.trans rfl
    have hcP := V2.pollLoop_counts_v2 env (statusUrlOf a cid) b 20 st1
    have hq2 : V2.pollLoop env (statusUrlOf a cid) 20 st1 = (Except.error m, st2) := hq
    rw [hq2] at hcP
    refine ⟨h1, ?_⟩
    have ht : (V2.publishToInstagram env ex a b c u k).2.trace =
        st2.trace ++ [Event.logError ("Error publishing to Instagram: " ++ m)] := by
      simp [V2.publishToInstagram, V2.publishBody, h, hq, emit]
    rw [ht, countPublish_append, hcP.trans h2]
    rfl
  · intro cid st1 st2 h hq
    rw [h] at hcU
    have h1 : countPolls st1.trace = 0 := hcU.1.trans rfl
    have h2 : countPublish b st1.trace = 0 := hcU.2.trans rfl
    have hcP := V2.pollLoop_counts_v2 env (statusUrlOf a cid) b 20 st1
    have hq2 : V2.pollLoop env (statusUrlOf a cid) 20 st1 = (Except.ok (), st2) := hq
    rw [hq2] at hcP
    refine ⟨h1, hcP.trans h2, ?_, ?_⟩
    · exact V2.pollLoop_ok_finished_v2 env (statusUrlOf a cid) 20 st1 st2 hq2
    · obtain ⟨δ0, hδ⟩ := V2.publishMediaContainer_trace env a b cid st2
      cases hp : V2.publishMediaContainer env a b cid st2 with
      | mk r3 st3 =>
        rw [hp] at hδ
        cases r3 with
        | error m3 =>
          refine ⟨δ0 ++ [Event.logError ("Error publishing to Instagram: " ++ m3)], ?_⟩
          have ht : (V2.publishToInstagram env ex a b c u k).2.trace =
              st3.trace ++ [Event.logError ("Error publishing to Instagram: " ++ m3)] := by
            simp [V2.publishToInstagram, V2.publishBody, h, hq, hp, emit]
          rw [ht, hδ]
          simp [List.append_assoc]
        | ok r =>
          refine ⟨δ0, ?_⟩
          have ht : (V2.publishToInstagram env ex a b c u k).2.trace = st3.trace := by
            simp [V2.publishToInstagram, V2.publishBody, h, hq, hp]
          rw [ht, hδ]

/-- Witness for the amended C2: with an environment where the upload fails,
the run performs no status poll and no `media_publish` POST. -/
theorem C2_witness :
    countPolls (V2.publishToInstagram envAllFail ⟨fun _ => [], fun _ => none⟩
      "t" "b" "c" "x,AAA" MediaType.image).2.trace = 0 ∧
    countPublish "b" (V2.publishToInstagram envAllFail ⟨fun _ => [], fun _ => none⟩
      "t" "b" "c" "x,AAA" MediaType.image).2.trace = 0 :=
  (C2_stage_order_poll_then_publish envAllFail ⟨fun _ => [], fun _ => none⟩
    "t" "b" "c" "x,AAA" MediaType.image).1 "Failed to upload image." _ rfl

/-- Claim C2, counterexample: in the publish-then-poll variant (variant 1),
a successful run issues its single `media_publish` POST as the second event,
before any status poll at all — so the POST is issued before any status poll
has returned `FINISHED`, contradicting the claim as stated for "every run of
publishToInstagram". -/
theorem C2_counterexample :
    (V1.publishToInstagram envC2 "t" "b" "c" "u" MediaType.image).1 = Except.ok "p1" ∧
    countPublish "b"
      (V1.publishToInstagram envC2 "t" "b" "c" "u" MediaType.image).2.trace = 1 ∧
    countPublish "b"
      ((V1.publishToInstagram envC2 "t" "b" "c" "u" MediaType.image).2.trace.take 2) = 1 ∧
    countPolls
      ((V1.publishToInstagram envC2 "t" "b" "c" "u" MediaType.image).2.trace.take 2) = 0 ∧
    countPolls (V1.publishToInstagram envC2 "t" "b" "c" "u" MediaType.image).2.trace = 1 := by
  refine ⟨?_, ?_, ?_, ?_, ?_⟩ <;> rfl

/-! Non-interference lemmas: two runs over the same environment whose states
agree on the fetch index and on console output (but may differ in recorded
request payloads) produce the same stage result, fetch index, and console
output, whatever the access tokens. -/

theorem V1.uploadMedia_nonint_v1 (env : Env) (a a2 b c u : String) (k : MediaType)
    (st st' : St) (hidx : st.idx = st'.idx) (hlog : logsOf st.trace = logsOf st'.trace) :
    (V1.uploadMedia env a b c u k st).1 = (V1.uploadMedia env a2 b c u k st').1 ∧
    (V1.uploadMedia env a b c u k st).2.idx = (V1.uploadMedia env a2 b c u k st').2.idx ∧
    logsOf (V1.uploadMedia env a b c u k st).2.trace =
      logsOf (V1.uploadMedia env a2 b c u k st').2.trace := by
  cases st with
  | mk i t =>
    cases st' with
    | mk i' t' =>
      dsimp only at hidx hlog
      subst hidx
      cases k <;> cases hok : (env i).ok <;> cases hid : (env i).body.idOk <;>
        refine ⟨?_, ?_, ?_⟩ <;>
          simp [V1.uploadMedia, fetch, emit, hok, hid, logsOf_append, logsOf, hlog]

theorem V1.pollLoop_nonint_v1 (env : Env) (url url' pid : String) :
    ∀ fuel (st st' : St), st.idx = st'.idx → logsOf st.trace = logsOf st'.trace →
      (V1.pollLoop env url pid fuel st).1 = (V1.pollLoop env url' pid fuel st').1 ∧
      (V1.pollLoop env url pid fuel st).2.idx = (V1.pollLoop env url' pid fuel st').2.idx ∧
      logsOf (V1.pollLoop env url pid fuel st).2.trace =
        logsOf (V1.pollLoop env url' pid fuel st').2.trace := by
  intro fuel
  induction fuel with
  | zero => intro st st' hidx hlog; exact ⟨rfl, hidx, hlog⟩
  | succ n ih =>
    intro st st' hidx hlog
    cases st with
    | mk i t =>
      cases st' with
      | mk i' t' =>
        dsimp only at hidx hlog
        subst hidx
        cases hok : (env i).ok
        · refine ⟨?_, ?_, ?_⟩ <;>
            simp [V1.pollLoop, fetch, emit, hok, logsOf_append, logsOf, hlog]
        · by_cases hf : (env i).body.status_code = some "FINISHED"
          · refine ⟨?_, ?_, ?_⟩ <;>
              simp [V1.pollLoop, fetch, emit, hok, hf, logsOf_append, logsOf, hlog]
          · by_cases he : (env i).body.status_code = some "ERROR"
            · refine ⟨?_, ?_, ?_⟩ <;>
                simp [V1.pollLoop, fetch, emit, hok, hf, he, logsOf_append, logsOf, hlog]
            · by_cases hx : (env i).body.status_code = some "EXPIRED"
              · refine ⟨?_, ?_, ?_⟩ <;>
                  simp [V1.pollLoop, fetch, emit, hok, hf, he, hx, logsOf_append,
                    logsOf, hlog]
              · rw [V1.pollLoop_step_v1 env url pid n ⟨i, t⟩ ⟨hok, hf, he, hx⟩,
                  V1.pollLoop_step_v1 env url' pid n ⟨i, t'⟩ ⟨hok, hf, he, hx⟩]
                exact ih _ _ rfl
                  (by simp [ntSegPre, logsOf_append, logsOf, hlog])

theorem V1.pollForCompletion_nonint (env : Env) (url url' : String)
    (form form' : List (String × String)) (a a2 b cid : String) (st st' : St)
    (hidx : st.idx = st'.idx) (hlog : logsOf st.trace = logsOf st'.trace) :
    (V1.pollForCompletion env url "POST" form a b cid st).1 =
      (V1.pollForCompletion env url' "POST" form' a2 b cid st').1 ∧
    (V1.pollForCompletion env url "POST" form a b cid st).2.idx =
      (V1.pollForCompletion env url' "POST" form' a2 b cid st').2.idx ∧
    logsOf (V1.pollForCompletion env url "POST" form a b cid st).2.trace =
      logsOf (V1.pollForCompletion env url' "POST" form' a2 b cid st').2.trace := by
  cases st with
  | mk i t =>
    cases st' with
    | mk i' t' =>
      dsimp only at hidx hlog
      subst hidx
      cases hok : (env i).ok <;> cases hid : (env i).body.idOk
      · refine ⟨?_, ?_, ?_⟩ <;>
          simp [V1.pollForCompletion, fetch, hok, hid, logsOf_append, logsOf, hlog]
      · refine ⟨?_, ?_, ?_⟩ <;>
          simp [V1.pollForCompletion, fetch, hok, hid, logsOf_append, logsOf, hlog]
      · refine ⟨?_, ?_, ?_⟩ <;>
          simp [V1.pollForCompletion, fetch, hok, hid, logsOf_append, logsOf, hlog]
      · have happ := V1.pollLoop_nonint_v1 env
          (BASE_URL ++ "/" ++ cid ++ "?fields=status_code,status&access_token=" ++ a)
          (BASE_URL ++ "/" ++ cid ++ "?fields=status_code,status&access_token=" ++ a2)
          ((env i).body.id.getD "") 10
          ⟨i + 1, t ++ [Event.req (Req.postForm url form)]⟩
          ⟨i + 1, t' ++ [Event.req (Req.postForm url' form')]⟩ rfl
          (by simp [logsOf_append, logsOf, hlog])
        refine ⟨?_, ?_, ?_⟩ <;>
          · simp only [V1.pollForCompletion, fetch]
            rw [if_neg (by simp [hok, hid]), if_neg (by simp [hok, hid])]
            first
            | exact happ.1
            | exact happ.2.1
            | exact happ.2.2

theorem V1.publishBody_nonint_v1 (env : Env) (a a2 b c u : String) (k : MediaType)
    (st st' : St) (hidx : st.idx = st'.idx) (hlog : logsOf st.trace = logsOf st'.trace) :
    (V1.publishBody env a b c u k st).1 = (V1.publishBody env a2 b c u k st').1 ∧
    (V1.publishBody env a b c u k st).2.idx = (V1.publishBody env a2 b c u k st').2.idx ∧
    logsOf (V1.publishBody env a b c u k st).2.trace =
      logsOf (V1.publishBody env a2 b c u k st').2.trace := by
  obtain ⟨hr, hi, hl⟩ := V1.uploadMedia_nonint_v1 env a a2 b c u k st st' hidx hlog
  unfold V1.publishBody
  cases h1 : V1.uploadMedia env a b c u k st with
  | mk r1 st1 =>
    cases h2 : V1.uploadMedia env a2 b c u k st' with
    | mk r1' st1' =>
      rw [h1, h2] at hr hi hl
      dsimp only at hr hi hl
      cases r1 with
      | error e =>
        cases r1' with
        | error e2 =>
          obtain rfl : e = e2 := by simpa using hr
          exact ⟨rfl, hi, hl⟩
        | ok _ => simp at hr
      | ok cid =>
        cases r1' with
        | error _ => simp at hr
        | ok cid2 =>
          obtain rfl : cid = cid2 := by simpa using hr
          exact V1.pollForCompletion_nonint env _ _ _ _ a a2 b cid st1 st1' hi hl

theorem V1.publishToInstagram_logs_nonint_v1 (env : Env) (a a2 b c u : String)
    (k : MediaType) :
    logsOf (V1.publishToInstagram env a b c u k).2.trace =
      logsOf (V1.publishToInstagram env a2 b c u k).2.trace := by
  obtain ⟨hr, hi, hl⟩ := V1.publishBody_nonint_v1 env a a2 b c u k St.init St.init rfl rfl
  unfold V1.publishToInstagram
  cases h1 : V1.publishBody env a b c u k St.init with
  | mk r1 st1 =>
    cases h2 : V1.publishBody env a2 b c u k St.init with
    | mk r1' st1' =>
      rw [h1, h2] at hr hl
      dsimp only at hr hl
      cases r1 with
      | error e =>
        cases r1' with
        | error e2 =>
          obtain rfl : e = e2 := by simpa using hr
          simp [emit, logsOf_append, logsOf, hl]
        | ok _ => simp at hr
      | ok c1 =>
        cases r1' with
        | error _ => simp at hr
        | ok c2 => simpa using hl

theorem V2.uploadMedia_nonint_v2 (env : Env) (ex : Ext) (a a2 b c u : String)
    (k : MediaType) (st st' : St) (hidx : st.idx = st'.idx)
    (hlog : logsOf st.trace = logsOf st'.trace) :
    (V2.uploadMedia env ex a b c u k st).1 = (V2.uploadMedia env ex a2 b c u k st').1 ∧
    (V2.uploadMedia env ex a b c u k st).2.idx =
      (V2.uploadMedia env ex a2 b c u k st').2.idx ∧
    logsOf (V2.uploadMedia env ex a b c u k st).2.trace =
      logsOf (V2.uploadMedia env ex a2 b c u k st').2.trace := by
  cases st with
  | mk i t =>
    cases st' with
    | mk i' t' =>
      dsimp only at hidx hlog
      subst hidx
      by_cases hv : (jsSplit ',' u)[1]?.getD "" = ""
      · cases k <;> refine ⟨?_, ?_, ?_⟩ <;> simp [V2.uploadMedia, hv, hlog]
      · cases k with
        | image =>
          cases hok : (env i).ok <;> cases hid : (env i).body.idOk <;>
            refine ⟨?_, ?_, ?_⟩ <;>
              simp [V2.uploadMedia, fetch, emit, hv, hok, hid, logsOf_append,
                logsOf, hlog]
        | video =>
          cases hok : (env i).ok <;> cases hid : (env i).body.idOk <;>
            cases h1 : (env (i + 1)).ok <;> cases h2 : (env (i + 1)).body.success <;>
              refine ⟨?_, ?_, ?_⟩ <;>
                simp [V2.uploadMedia, fetch, emit, hv, hok, hid, h1, h2,
                  logsOf_append, logsOf, hlog]

theorem V2.pollLoop_nonint_v2 (env : Env) (url url' : String) :
    ∀ fuel (st st' : St), st.idx = st'.idx → logsOf st.trace = logsOf st'.trace →
      (V2.pollLoop env url fuel st).1 = (V2.pollLoop env url' fuel st').1 ∧
      (V2.pollLoop env url fuel st).2.idx = (V2.pollLoop env url' fuel st').2.idx ∧
      logsOf (V2.pollLoop env url fuel st).2.trace =
        logsOf (V2.pollLoop env url' fuel st').2.trace := by
  intro fuel
  induction fuel with
  | zero => intro st st' hidx hlog; exact ⟨rfl, hidx, hlog⟩
  | succ n ih =>
    intro st st' hidx hlog
    cases st with
    | mk i t =>
      cases st' with
      | mk i' t' =>
        dsimp only at hidx hlog
        subst hidx
        cases hok : (env i).ok
        · refine ⟨?_, ?_, ?_⟩ <;>
            simp [V2.pollLoop, fetch, emit, hok, logsOf_append, logsOf, hlog]
        · by_cases hf : (env i).body.status_code = some "FINISHED"
          · refine ⟨?_, ?_, ?_⟩ <;>
              simp [V2.pollLoop, fetch, emit, hok, hf, logsOf_append, logsOf, hlog]
          · by_cases he : (env i).body.status_code = some "ERROR"
            · refine ⟨?_, ?_, ?_⟩ <;>
                simp [V2.pollLoop, fetch, emit, hok, hf, he, logsOf_append, logsOf, hlog]
            · by_cases hx : (env i).body.status_code = some "EXPIRED"
              · refine ⟨?_, ?_, ?_⟩ <;>
                  simp [V2.pollLoop, fetch, emit, hok, hf, he, hx, logsOf_append,
                    logsOf, hlog]
              · rw [V2.pollLoop_step_v2 env url n ⟨i, t⟩ ⟨hok, hf, he, hx⟩,
                  V2.pollLoop_step_v2 env url' n ⟨i, t'⟩ ⟨hok, hf, he, hx⟩]
                exact ih _ _ rfl
                  (by simp [ntSegPost, logsOf_append, logsOf, hlog])

theorem V2.pollForContainerReady_nonint (env : Env) (a a2 cid : String) (st st' : St)
    (hidx : st.idx = st'.idx) (hlog : logsOf st.trace = logsOf st'.trace) :
    (V2.pollForContainerReady env a cid st).1 =
      (V2.pollForContainerReady env a2 cid st').1 ∧
    (V2.pollForContainerReady env a cid st).2.idx =
      (V2.pollForContainerReady env a2 cid st').2.idx ∧
    logsOf (V2.pollForContainerReady env a cid st).2.trace =
      logsOf (V2.pollForContainerReady env a2 cid st').2.trace :=
  V2.pollLoop_nonint_v2 env
    (BASE_URL ++ "/" ++ cid ++ "?fields=status_code,status&access_token=" ++ a)
    (BASE_URL ++ "/" ++ cid ++ "?fields=status_code,status&access_token=" ++ a2)
    20 st st' hidx hlog

theorem V2.publishMediaContainer_nonint (env : Env) (a a2 b cid : String) (st st' : St)
    (hidx : st.idx = st'.idx) (hlog : logsOf st.trace = logsOf st'.trace) :
    (V2.publishMediaContainer env a b cid st).1 =
      (V2.publishMediaContainer env a2 b cid st').1 ∧
    (V2.publishMediaContainer env a b cid st).2.idx =
      (V2.publishMediaContainer env a2 b cid st').2.idx ∧
    logsOf (V2.publishMediaContainer env a b cid st).2.trace =
      logsOf (V2.publishMediaContainer env a2 b cid st').2.trace := by
  cases st with
  | mk i t =>
    cases st' with
    | mk i' t' =>
      dsimp only at hidx hlog
      subst hidx
      cases hok : (env i).ok <;> cases hid : (env i).body.idOk <;>
        refine ⟨?_, ?_, ?_⟩ <;>
          simp [V2.publishMediaContainer, fetch, emit, hok, hid, logsOf_append,
            logsOf, hlog]

set_option maxHeartbeats 1000000 in
theorem V2.publishBody_nonint_v2 (env : Env) (ex : Ext) (a a2 b c u : String)
    (k : MediaType) (st st' : St) (hidx : st.idx = st'.idx)
    (hlog : logsOf st.trace = logsOf st'.trace) :
    (V2.publishBody env ex a b c u k st).1 = (V2.publishBody env ex a2 b c u k st').1 ∧
    (V2.publishBody env ex a b c u k st).2.idx =
      (V2.publishBody env ex a2 b c u k st').2.idx ∧
    logsOf (V2.publishBody env ex a b c u k st).2.trace =
      logsOf (V2.publishBody env ex a2 b c u k st').2.trace := by
  obtain ⟨hr, hi, hl⟩ := V2.uploadMedia_nonint_v2 env ex a a2 b c u k st st' hidx hlog
  unfold V2.publishBody
  cases h1 : V2.uploadMedia env ex a b c u k st with
  | mk r1 st1 =>
    cases h2 : V2.uploadMedia env ex a2 b c u k st' with
    | mk r1' st1' =>
      rw [h1, h2] at hr hi hl
      dsimp only at hr hi hl
      cases r1 with
      | error e =>
        cases r1' with
        | error e2 =>
          obtain rfl : e = e2 := by simpa using hr
          exact ⟨rfl, hi, hl⟩
        | ok _ => simp at hr
      | ok cid =>
        cases r1' with
        | error _ => simp at hr
        | ok cid2 =>
          obtain rfl : cid = cid2 := by simpa using hr
          dsimp only
          obtain ⟨hr2, hi2, hl2⟩ := V2.pollForContainerReady_nonint env a a2 cid
            st1 st1' hi hl
          cases h3 : V2.pollForContainerReady env a cid st1 with
          | mk r2 st2 =>
            cases h4 : V2.pollForContainerReady env a2 cid st1' with
            | mk r2' st2' =>
              rw [h3, h4] at hr2 hi2 hl2
              dsimp only at hr2 hi2 hl2
              obtain rfl : r2 = r2' := hr2
              cases r2 with
              | error e => exact ⟨rfl, hi2, hl2⟩
              | ok v =>
                cases v
                dsimp only
                exact V2.publishMediaContainer_nonint env a a2 b cid st2 st2' hi2 hl2

theorem V2.publishToInstagram_logs_nonint_v2 (env : Env) (ex : Ext) (a a2 b c u : String)
    (k : MediaType) :
    logsOf (V2.publishToInstagram env ex a b c u k).2.trace =
      logsOf (V2.publishToInstagram env ex a2 b c u k).2.trace := by
  obtain ⟨hr, hi, hl⟩ := V2.publishBody_nonint_v2 env ex a a2 b c u k St.init St.init rfl rfl
  unfold V2.publishToInstagram
  cases h1 : V2.publishBody env ex a b c u k St.init with
  | mk r1 st1 =>
    cases h2 : V2.publishBody env ex a2 b c u k St.init with
    | mk r1' st1' =>
      rw [h1, h2] at hr hl
      dsimp only at hr hl
      cases r1 with
      | error e =>
        cases r1' with
        | error e2 =>
          obtain rfl : e = e2 := by simpa using hr
          simp [emit, logsOf_append, logsOf, hl]
        | ok _ => simp at hr
      | ok c1 =>
        cases r1' with
        | error _ => simp at hr
        | ok c2 => simpa using hl

/-- Claim C9: the console output of a run never depends on the access token:
two runs over identical platform responses that differ only in the
`accessToken` produce identical log output (the token flows only into
request URLs, form fields and headers, never into any `console.log` /
`console.error` emission).  Stated for variants 1 and 2, over the whole
orchestrator including every stage's logging and the catch-boundary log. -/
theorem C9_logs_independent_of_token :
    ∀ env ex a a2 b c u k,
      logsOf (V1.publishToInstagram env a b c u k).2.trace =
        logsOf (V1.publishToInstagram env a2 b c u k).2.trace ∧
      logsOf (V2.publishToInstagram env ex a b c u k).2.trace =
        logsOf (V2.publishToInstagram env ex a2 b c u k).2.trace :=
  fun env ex a a2 b c u k =>
    ⟨V1.publishToInstagram_logs_nonint_v1 env a a2 b c u k,
     V2.publishToInstagram_logs_nonint_v2 env ex a a2 b c u k⟩

/-- Claim C10: in the publish-first variant (variant 1's
`pollForCompletion` issues the `media_publish` POST before entering the poll
loop), any error the poller raises after at least one status poll — which
includes every timeout and every `ERROR`/`EXPIRED` processing failure, since
those arise only inside the loop — is raised strictly after the
`media_publish` POST already returned success: if that POST had failed, the
poller would have stopped with zero polls.  Hence `publishToInstagram` can
throw although the publish call succeeded (the post may already be live):
in the concrete environment `envC10` the run ends in
`"Instagram publishing failed: Publishing timed out."` even though the
`media_publish` POST was issued and its response was HTTP-success with an
`id` — failure of `publish()` is not atomic with respect to the platform's
state. -/
theorem C10_poller_fails_after_successful_publish :
    (∀ env url form a b cid,
      (¬((env 0).ok = true ∧ (env 0).body.idOk = true) →
        countPolls (V1.pollForCompletion env url "POST" form a b cid St.init).2.trace = 0 ∧
        isOkRes (V1.pollForCompletion env url "POST" form a b cid St.init).1 = false) ∧
      (1 ≤ countPolls (V1.pollForCompletion env url "POST" form a b cid St.init).2.trace →
        (env 0).ok = true ∧ (env 0).body.idOk = true)) ∧
    ((V1.publishToInstagram envC10 "t" "b" "c" "u" MediaType.image).1 =
      Except.error "Instagram publishing failed: Publishing timed out." ∧
     countPublish "b" (V1.publishToInstagram envC10 "t" "b" "c" "u"
       MediaType.image).2.trace = 1 ∧
     countPolls (V1.publishToInstagram envC10 "t" "b" "c" "u"
       MediaType.image).2.trace = 10 ∧
     (envC10 1).ok = true ∧ (envC10 1).body.idOk = true) := by
  constructor
  · intro env url form a b cid
    have hfail : ¬((env 0).ok = true ∧ (env 0).body.idOk = true) →
        countPolls (V1.pollForCompletion env url "POST" form a b cid St.init).2.trace = 0 ∧
        isOkRes (V1.pollForCompletion env url "POST" form a b cid St.init).1 = false := by
      intro hn
      cases hok : (env 0).ok <;> cases hid : (env 0).body.idOk
      · simp [V1.pollForCompletion, fetch, St.init, hok, hid, isOkRes, countPolls,
          List.countP_cons, isPollEvent]
      · simp [V1.pollForCompletion, fetch, St.init, hok, hid, isOkRes, countPolls,
          List.countP_cons, isPollEvent]
      · simp [V1.pollForCompletion, fetch, St.init, hok, hid, isOkRes, countPolls,
          List.countP_cons, isPollEvent]
      · exact absurd ⟨hok, hid⟩ hn
    refine ⟨hfail, ?_⟩
    intro h
    by_contra hn
    have := (hfail hn).1
    omega
  · refine ⟨?_, ?_, ?_, ?_, ?_⟩ <;> rfl

/-- Witness for C10: in `envC2` the poller performed at least one status
poll, so the initial `media_publish` POST must have returned success. -/
theorem C10_witness :
    (envC2 0).ok = true ∧ (envC2 0).body.idOk = true :=
  ((C10_poller_fails_after_successful_publish.1 envC2 "u" [] "t" "b" "c").2 (by decide))

end Insta
